import Mathlib

/-! egress-multitenant-demo: a shallow embedding of `main.go`.

The program is a small HTTP server.  Everything it consults outside its own
source (environment variables, network interfaces, the UDP dial, the file
system, the clock, the outbound HTTP client) is gathered in `World`; the
functions of `main.go` become functions of the process-wide variables
(`Globals`) and the `World`.  Operations on the outside are logged in order
(`Event`), so that "is not consulted" and "exactly one attempt" are statements
about the log.
-/

set_option autoImplicit false

namespace EgressDemo

/-! ## The Go `net` package: addresses -/

/-- One octet. -/
abbrev Byte := Fin 256

/-- Go `net.IP`: a byte slice; 4 bytes for IPv4, 16 for IPv6, other lengths
are not addresses (a nil slice has length 0). -/
structure IP where
  bytes : List Byte
  deriving DecidableEq, Repr

/-- Go `net.IPv6loopback`, the address `::1`. -/
def IPv6loopback : IP := ⟨[0, 0, 0, 0, 0, 0, 0, 0, 0, 0, 0, 0, 0, 0, 0, 1]⟩

/-- Go `net.v4InV6Prefix`. -/
def v4InV6Prefix : List Byte := [0, 0, 0, 0, 0, 0, 0, 0, 0, 0, 0xff, 0xff]

/-- Go `net.isZeros`. -/
def isZeros (p : List Byte) : Bool := p.all (fun b => b == 0)

/-- Go `IP.To4`: the 4-byte form of an IPv4 address, `none` (Go `nil`) when
the address is not IPv4. -/
def IP.To4 (ip : IP) : Option IP :=
  if ip.bytes.length = 4 then some ip
  else if ip.bytes.length = 16 && isZeros (ip.bytes.take 10)
      && ip.bytes[10]? == some 0xff && ip.bytes[11]? == some 0xff then
    some ⟨(ip.bytes.drop 12).take 4⟩
  else none

/-- Go `IP.Equal`: an IPv4 address and its IPv4-in-IPv6 form are equal. -/
def IP.Equal (ip x : IP) : Bool :=
  if ip.bytes.length = x.bytes.length then ip.bytes == x.bytes
  else if ip.bytes.length = 4 && x.bytes.length = 16 then
    x.bytes.take 12 == v4InV6Prefix && ip.bytes == x.bytes.drop 12
  else if ip.bytes.length = 16 && x.bytes.length = 4 then
    ip.bytes.take 12 == v4InV6Prefix && ip.bytes.drop 12 == x.bytes
  else false

/-- Go `IP.IsLoopback`. -/
def IP.IsLoopback (ip : IP) : Bool :=
  match ip.To4 with
  | some ip4 => ip4.bytes[0]? == some 127
  | none => ip.Equal IPv6loopback

/-- One lower-case hexadecimal digit. -/
def hexDigit (n : Nat) : Char :=
  if n < 10 then Char.ofNat (48 + n) else Char.ofNat (87 + n)

/-- Go `net.hexString`: two lower-case hexadecimal digits per byte. -/
def hexString (p : List Byte) : String :=
  String.mk (p.flatMap (fun b => [hexDigit (b.val / 16), hexDigit (b.val % 16)]))

/-- Dotted-decimal text of four octets (Go `netip.Addr.string4`). -/
def string4 (a b c d : Byte) : String :=
  toString a.val ++ "." ++ toString b.val ++ "." ++ toString c.val ++ "." ++ toString d.val

/-- The eight 16-bit groups of a 16-byte address (Go `netip.Addr.v6u16`). -/
def v6u16 : List Byte → List Nat
  | hi :: lo :: rest => (hi.val * 256 + lo.val) :: v6u16 rest
  | _ => []

/-- Hexadecimal digits of a number, most significant first, at most `k` of
them, no leading zeros (the digits of Go `netip.appendHex`). -/
def hexDigits : Nat → Nat → List Char
  | 0, _ => []
  | k + 1, n => if n < 16 then [hexDigit n] else hexDigits k (n / 16) ++ [hexDigit (n % 16)]

/-- Number of zero groups at the head of a list. -/
def zeroRun : List Nat → Nat
  | 0 :: rest => zeroRun rest + 1
  | _ => 0

/-- The loop of Go `netip.Addr.appendTo6` that picks the run of zero groups to
abbreviate: `groups` are the groups from index `i` on, `best = (start, end)`
the choice so far (`end - start = 0` when none); a run is taken when it has at
least two groups and is strictly longer than the choice so far. -/
def longestZeroRun : List Nat → Nat → Nat × Nat → Nat × Nat
  | [], _, best => best
  | g :: rest, i, best =>
    let l := zeroRun (g :: rest)
    longestZeroRun rest (i + 1) (if 2 ≤ l ∧ best.2 - best.1 < l then (i, i + l) else best)

/-- The output loop of Go `netip.Addr.appendTo6`: `groups` are the groups from
index `i` on; the groups `zs ≤ i < ze` are written as `::`. -/
def writeGroups (zs ze : Nat) : List Nat → Nat → List Char
  | [], _ => []
  | g :: rest, i =>
    if zs ≤ i ∧ i < ze then
      (if i = zs then [':', ':'] else []) ++ writeGroups zs ze rest (i + 1)
    else
      (if 0 < i ∧ i ≠ ze then [':'] else []) ++ hexDigits 4 g ++ writeGroups zs ze rest (i + 1)

/-- Text of a 16-byte address that is not IPv4-in-IPv6 (Go
`netip.Addr.string6` of an address without zone). -/
def string6 (p : List Byte) : String :=
  let groups := v6u16 p
  let best := longestZeroRun groups 0 (255, 255)
  String.mk (writeGroups best.1 best.2 groups 0)

/-- Go `IP.String`. -/
def IP.String (ip : IP) : String :=
  if ip.bytes.length = 0 then "<nil>"
  else if ip.bytes.length ≠ 4 ∧ ip.bytes.length ≠ 16 then "?" ++ hexString ip.bytes
  else
    match ip.To4 with
    | some ⟨[a, b, c, d]⟩ => string4 a b c d
    | _ => string6 ip.bytes

/-- Go `net.Addr`, by dynamic type: a `*net.IPNet` (address and mask) or a
value of another type implementing the interface (for instance
`*net.IPAddr`). -/
inductive Addr
  | ipNet (ip : IP) (mask : List Byte)
  | other (network text : String)
  deriving DecidableEq, Repr

/-- Go `net.UDPAddr`. -/
structure UDPAddr where
  ip : IP
  port : Nat
  deriving DecidableEq, Repr

/-- Go `net.Interface` as returned by `net.InterfaceByName`, together with
what its `Addrs` method returns. -/
structure Interface where
  name : String
  addrs : Except String (List Addr)

/-! ## The outside of the process -/

/-- An operation the program performs on the outside of the process. -/
inductive Event
  | interfaceByName (name : String)
  | ifaceAddrs (name : String)
  | interfaceAddrs
  | dial (network address : String)
  | readFile (name : String)
  | clientGet (proxy url : String)
  | readAll (url : String)
  deriving DecidableEq, Repr

/-- A computation of `main.go`: its value and the operations it performed on
the outside, in order. -/
structure Sys (α : Type) where
  val : α
  log : List Event

/-- Sequencing: the second computation runs after the first, on its value. -/
def Sys.bind {α β : Type} (m : Sys α) (f : α → Sys β) : Sys β :=
  ⟨(f m.val).val, m.log ++ (f m.val).log⟩

instance : Monad Sys where
  pure a := ⟨a, []⟩
  bind := Sys.bind

/-- Go `http.Response` as far as the handlers look at it: the status code and
what `io.ReadAll(resp.Body)` returns, an error or the bytes of the body. -/
structure HTTPResponse where
  statusCode : Nat
  body : Except String (List Byte)

/-- Everything the program consults outside its own source.  Errors are
represented by their `Error()` text. -/
structure World where
  /-- Go `os.Getenv`: the empty string for an unset variable. -/
  getenv : String → String
  /-- Go `net.InterfaceByName`. -/
  interfaceByName : String → Except String Interface
  /-- Go `net.InterfaceAddrs`. -/
  interfaceAddrs : Except String (List Addr)
  /-- Go `net.Dial(network, address)` followed by `conn.LocalAddr()`.  The
  program dials on network `udp` only, where the connection is a
  `*net.UDPConn` and its local address a `*net.UDPAddr`: the type assertion of
  line 299 is carried by the type of this field. -/
  dial : String → String → Except String UDPAddr
  /-- Go `os.ReadFile`. -/
  readFile : String → Except String String
  /-- Go `time.Now().Format(time.RFC3339)`: the clock reading, formatted. -/
  now : String
  /-- Go `client.Get(url)` on a client whose transport takes its proxy from
  the given value. -/
  clientGet : String → String → Except String HTTPResponse
  /-- Go `strconv.ParseFloat(lit, 64)` on a JSON number literal: the `float64`
  it denotes, as its 64 bits, or `none` for a range error. -/
  parseFloat64 : String → Option Nat

/-- The package-level variables of `main.go` (lines 39-46). -/
structure Globals where
  podName : String
  ifaceName : String
  namespace_ : String
  nodeName : String
  proxyURL : String
  proxyConfig : String
  deriving DecidableEq, Repr

/-- `net.InterfaceByName(name)`, logged. -/
def World.InterfaceByName (sys : World) (name : String) : Sys (Except String Interface) :=
  ⟨sys.interfaceByName name, [.interfaceByName name]⟩

/-- `iface.Addrs()`, logged. -/
def World.Addrs (_sys : World) (iface : Interface) : Sys (Except String (List Addr)) :=
  ⟨iface.addrs, [.ifaceAddrs iface.name]⟩

/-- `net.InterfaceAddrs()`, logged. -/
def World.InterfaceAddrs (sys : World) : Sys (Except String (List Addr)) :=
  ⟨sys.interfaceAddrs, [.interfaceAddrs]⟩

/-- `net.Dial(network, address)`, logged; on success the connection's
`LocalAddr()`. -/
def World.Dial (sys : World) (network address : String) : Sys (Except String UDPAddr) :=
  ⟨sys.dial network address, [.dial network address]⟩

/-! ## `getHostIP` and `getPodIP` -/

/-- The loop of lines 281-287 (and, identically, 315-321): the text of the
first entry that is a `*net.IPNet`, is not a loopback address and has a 4-byte
form; `none` when the loop ends without returning. -/
def firstIPv4 : List Addr → Option String
  | [] => none
  | .ipNet ip _ :: rest =>
    if !ip.IsLoopback then
      if ip.To4 ≠ none then some ip.String else firstIPv4 rest
    else firstIPv4 rest
  | .other _ _ :: rest => firstIPv4 rest

/-- Lines 276-290 of `getHostIP`: the named-interface step.  `some s` when
the function returns `s` from inside the loop, `none` when control reaches
line 292. -/
def namedInterfaceStep (g : Globals) (sys : World) : Sys (Option String) :=
  if g.ifaceName ≠ "" then do
    match ← sys.InterfaceByName g.ifaceName with
    | .ok iface =>
      match ← sys.Addrs iface with
      | .ok addrs => pure (firstIPv4 addrs)
      | .error _ => pure none
    | .error _ => pure none
  else pure none

/-- `getHostIP` (lines 269-301). -/
def getHostIP (g : Globals) (sys : World) : Sys String :=
  if sys.getenv "HOST_IP" ≠ "" then pure (sys.getenv "HOST_IP")
  else do
    match ← namedInterfaceStep g sys with
    | some s => pure s
    | none =>
      match ← sys.Dial "udp" "8.8.8.8:80" with
      | .error _ => pure "unknown"
      | .ok localAddr => pure localAddr.ip.String

/-- `getPodIP` (lines 303-324).  It has the package-level variables in scope
and reads none of them. -/
def getPodIP (_g : Globals) (sys : World) : Sys String :=
  if sys.getenv "POD_IP" ≠ "" then pure (sys.getenv "POD_IP")
  else do
    match ← sys.InterfaceAddrs with
    | .error _ => pure "unknown"
    | .ok addrs =>
      match firstIPv4 addrs with
      | some s => pure s
      | none => pure "unknown"

/-! ## Go strings and UTF-8

A Go string, like a `[]byte`, is a sequence of bytes.  Where a string is read
as text (by the JSON encoder and decoder), Go decodes it as UTF-8 and takes
every byte that starts no valid encoding for U+FFFD. -/

/-- The byte with the low eight bits of a number. -/
def byte (n : Nat) : Byte := ⟨n % 256, Nat.mod_lt _ (by decide)⟩

/-- The byte of an ASCII character. -/
def ascii (c : Char) : Byte := byte c.toNat

/-- Go `utf8.RuneError`, U+FFFD. -/
def runeError : Char := Char.ofNat 0xFFFD

/-- Go `utf8.EncodeRune` on a Unicode character. -/
def encodeRune (c : Char) : List Byte :=
  if c.toNat < 0x80 then [byte c.toNat]
  else if c.toNat < 0x800 then [byte (0xC0 + c.toNat / 64), byte (0x80 + c.toNat % 64)]
  else if c.toNat < 0x10000 then
    [byte (0xE0 + c.toNat / 4096), byte (0x80 + c.toNat / 64 % 64), byte (0x80 + c.toNat % 64)]
  else
    [byte (0xF0 + c.toNat / 262144), byte (0x80 + c.toNat / 4096 % 64),
      byte (0x80 + c.toNat / 64 % 64), byte (0x80 + c.toNat % 64)]

/-- The bytes of a text: its UTF-8 encoding. -/
def utf8Bytes (s : String) : List Byte := s.data.flatMap encodeRune

/-- Go `utf8.first` and `utf8.acceptRanges`: for a byte that starts an encoding
of more than one byte, the length of the encoding and the lowest and highest
second byte accepted; `none` for a byte of 0x80 or more that starts none. -/
def leadInfo (p0 : Byte) : Option (Nat × Nat × Nat) :=
  if 0xC2 ≤ p0.val ∧ p0.val ≤ 0xDF then some (2, 0x80, 0xBF)
  else if p0.val = 0xE0 then some (3, 0xA0, 0xBF)
  else if p0.val = 0xED then some (3, 0x80, 0x9F)
  else if 0xE1 ≤ p0.val ∧ p0.val ≤ 0xEF then some (3, 0x80, 0xBF)
  else if p0.val = 0xF0 then some (4, 0x90, 0xBF)
  else if 0xF1 ≤ p0.val ∧ p0.val ≤ 0xF3 then some (4, 0x80, 0xBF)
  else if p0.val = 0xF4 then some (4, 0x80, 0x8F)
  else none

/-- Go `utf8.DecodeRune`: the first character of a byte sequence and the number
of bytes it takes; `(RuneError, 1)` when the sequence does not start with a
valid encoding, `(RuneError, 0)` when it is empty. -/
def decodeRune (p : List Byte) : Char × Nat :=
  match p with
  | [] => (runeError, 0)
  | p0 :: rest =>
    if p0.val < 0x80 then (Char.ofNat p0.val, 1)
    else
      match leadInfo p0 with
      | none => (runeError, 1)
      | some (sz, lo, hi) =>
        if p.length < sz then (runeError, 1)
        else
          match rest with
          | [] => (runeError, 1)
          | b1 :: rest1 =>
            if b1.val < lo ∨ hi < b1.val then (runeError, 1)
            else if sz ≤ 2 then (Char.ofNat (p0.val % 32 * 64 + b1.val % 64), 2)
            else
              match rest1 with
              | [] => (runeError, 1)
              | b2 :: rest2 =>
                if b2.val < 0x80 ∨ 0xBF < b2.val then (runeError, 1)
                else if sz ≤ 3 then
                  (Char.ofNat (p0.val % 16 * 4096 + b1.val % 64 * 64 + b2.val % 64), 3)
                else
                  match rest2 with
                  | [] => (runeError, 1)
                  | b3 :: _ =>
                    if b3.val < 0x80 ∨ 0xBF < b3.val then (runeError, 1)
                    else
                      (Char.ofNat (p0.val % 8 * 262144 + b1.val % 64 * 4096
                        + b2.val % 64 * 64 + b3.val % 64), 4)

/-- The loop `for i < len(s) { r, size := DecodeRune(s[i:]); i += size }`, with
`skip` bytes of the last encoding still to pass over. -/
def decodeFrom : Nat → List Byte → List Char
  | _, [] => []
  | skip + 1, _ :: rest => decodeFrom skip rest
  | 0, p0 :: rest =>
    (decodeRune (p0 :: rest)).1 :: decodeFrom ((decodeRune (p0 :: rest)).2 - 1) rest

/-- The characters of a Go string read as text: every byte that starts no
valid UTF-8 encoding counts as U+FFFD. -/
def decodeUTF8 (p : List Byte) : List Char := decodeFrom 0 p

/-- The text of a Go string as the JSON encoder writes it into a JSON string
(and a JSON reader gets it back). -/
def textOf (p : List Byte) : String := String.mk (decodeUTF8 p)

/-! ## The Go `encoding/json` package

`json.Unmarshal` first checks the whole text (`checkValid`, a byte-driven
scanner with a stack of open arrays and objects) and only then stores values.
The scanner below follows Go's `scanner.go` state by state and builds the
document while it checks it. -/

/-- A JSON document.  Strings and member names are unquoted; a number keeps
its literal. -/
inductive JSON
  | null
  | bool (b : Bool)
  | number (lit : String)
  | string (s : String)
  | array (items : List JSON)
  | object (members : List (String × JSON))
  deriving Repr

/-- An open array or object on the scanner's stack (Go `parseState`), with
what has been read of it, last first.  An object with `key = some k` has read
the member name `k` and not yet the member's value. -/
inductive Frame
  | array (done : List JSON)
  | object (done : List (String × JSON)) (key : Option String)

/-- Where the scanner is inside a number (Go `stateNeg`, `state0`, `state1`,
`stateDot`, `stateDot0`, `stateE`, `stateESign`, `stateE0`). -/
inductive NumState
  | neg | zero | int | dot | frac | e | esign | exp
  deriving DecidableEq, Repr

/-- The scanner's next step (Go `scanner.step`).  Bytes read of an unfinished
string or number are kept last first. -/
inductive Step
  | beginValueOrEmpty
  | beginValue
  | beginStringOrEmpty
  | beginString
  | endValue
  | endTop (v : JSON)
  | inString (isKey : Bool) (raw : List Byte)
  | inStringEsc (isKey : Bool) (raw : List Byte)
  | inStringEscU (isKey : Bool) (raw : List Byte) (seen : Nat)
  | num (st : NumState) (raw : List Byte)
  | lit (name : String) (rest : List Byte) (v : JSON)
  | error (msg : String)

/-- Go `scanner`: the next step and the stack of open arrays and objects. -/
structure Scanner where
  step : Step
  stack : List Frame

/-- Go `maxNestingDepth`. -/
def maxNestingDepth : Nat := 10000

/-- Go `isSpace`. -/
def isSpace (c : Byte) : Bool :=
  c == ascii ' ' || c == ascii '\t' || c == ascii '\r' || c == ascii '\n'

/-- Go `quoteChar`: a byte as it is shown in a syntax error. -/
def quoteChar (c : Byte) : String :=
  if c == ascii '\'' then "'\\''"
  else if c == ascii '"' then "'\"'"
  else if c == ascii '\\' then "'\\\\'"
  else if c.val == 7 then "'\\a'"
  else if c.val == 8 then "'\\b'"
  else if c.val == 12 then "'\\f'"
  else if c.val == 10 then "'\\n'"
  else if c.val == 13 then "'\\r'"
  else if c.val == 9 then "'\\t'"
  else if c.val == 11 then "'\\v'"
  else if c.val < 0x20 || c.val == 0x7f then
    "'\\x" ++ String.mk [hexDigit (c.val / 16), hexDigit (c.val % 16)] ++ "'"
  else if (0x80 ≤ c.val && c.val ≤ 0xA0) || c.val == 0xAD then
    "'\\u00" ++ String.mk [hexDigit (c.val / 16), hexDigit (c.val % 16)] ++ "'"
  else "'" ++ String.mk [Char.ofNat c.val] ++ "'"

/-- Go `scanner.error`: the scanner stops with a syntax error. -/
def Scanner.fail (c : Byte) (context : String) : Scanner :=
  ⟨.error ("invalid character " ++ quoteChar c ++ " " ++ context), []⟩

/-- Value of one hexadecimal digit (0 for another character). -/
def hexVal (c : Char) : Nat :=
  if '0' ≤ c ∧ c ≤ '9' then c.toNat - 48
  else if 'a' ≤ c ∧ c ≤ 'f' then c.toNat - 87
  else if 'A' ≤ c ∧ c ≤ 'F' then c.toNat - 55
  else 0

/-- Whether a byte is a hexadecimal digit. -/
def isHex (c : Byte) : Bool :=
  (ascii '0' ≤ c ∧ c ≤ ascii '9') || (ascii 'a' ≤ c ∧ c ≤ ascii 'f')
    || (ascii 'A' ≤ c ∧ c ≤ ascii 'F')

/-- Go `getu4`: the number written by four hexadecimal digits. -/
def getu4 (a b c d : Char) : Nat :=
  hexVal a * 4096 + hexVal b * 256 + hexVal c * 16 + hexVal d

/-- The character a one-letter escape stands for. -/
def escapeChar (c : Char) : Char :=
  if c == 'b' then Char.ofNat 8
  else if c == 'f' then Char.ofNat 12
  else if c == 'n' then '\n'
  else if c == 'r' then '\r'
  else if c == 't' then '\t'
  else c

/-- The escapes of Go `unquote`, on the characters of the inside of a string
literal the scanner has accepted: escapes are replaced; a `\u` escape in the
surrogate range stands for U+FFFD unless it is a high surrogate directly
followed by a low one, which together stand for one character. -/
def unquote : List Char → List Char
  | '\\' :: 'u' :: a :: b :: c :: d :: '\\' :: 'u' :: a2 :: b2 :: c2 :: d2 :: rest =>
    let rr := getu4 a b c d
    let rr1 := getu4 a2 b2 c2 d2
    if 0xD800 ≤ rr ∧ rr < 0xE000 then
      if rr < 0xDC00 ∧ 0xDC00 ≤ rr1 ∧ rr1 < 0xE000 then
        Char.ofNat (0x10000 + (rr - 0xD800) * 1024 + (rr1 - 0xDC00)) :: unquote rest
      else Char.ofNat 0xFFFD :: unquote ('\\' :: 'u' :: a2 :: b2 :: c2 :: d2 :: rest)
    else Char.ofNat rr :: unquote ('\\' :: 'u' :: a2 :: b2 :: c2 :: d2 :: rest)
  | '\\' :: 'u' :: a :: b :: c :: d :: rest =>
    let rr := getu4 a b c d
    (if 0xD800 ≤ rr ∧ rr < 0xE000 then Char.ofNat 0xFFFD else Char.ofNat rr) :: unquote rest
  | '\\' :: e :: rest => escapeChar e :: unquote rest
  | c :: rest => c :: unquote rest
  | [] => []

/-- Go `unquote` on the bytes between the quotes of a string literal the
scanner has accepted: the bytes are read as UTF-8 text (a byte that starts no
valid encoding is U+FFFD; the bytes of an escape are ASCII and stand for
themselves) and the escapes are replaced. -/
def unquoteBytes (raw : List Byte) : String := String.mk (unquote (decodeUTF8 raw))

/-- The text of the bytes of a number literal, which are ASCII. -/
def asciiText (raw : List Byte) : String := String.mk (raw.map (fun b => Char.ofNat b.val))

/-- A value has been read completely: it goes into the innermost open array
or object, or is the document when none is open (the bookkeeping of Go
`popParseState` and of the decoder's `array` and `object`). -/
def Scanner.endOfValue (stack : List Frame) (v : JSON) : Scanner :=
  match stack with
  | [] => ⟨.endTop v, []⟩
  | .array done :: rest => ⟨.endValue, .array (v :: done) :: rest⟩
  | .object done (some k) :: rest => ⟨.endValue, .object ((k, v) :: done) none :: rest⟩
  | .object _ none :: _ => ⟨.error "JSON decoder out of sync - data changing underfoot?", []⟩

/-- Go `pushParseState`: open an array or object, unless that exceeds the
nesting limit. -/
def Scanner.push (c : Byte) (f : Frame) (stack : List Frame) (next : Step) : Scanner :=
  if (f :: stack).length ≤ maxNestingDepth then ⟨next, f :: stack⟩
  else Scanner.fail c "exceeded max depth"

/-- Go `stateEndTop`: after the document only white space may follow. -/
def stateEndTop (v : JSON) (c : Byte) : Scanner :=
  if isSpace c then ⟨.endTop v, []⟩ else Scanner.fail c "after top-level value"

/-- Go `stateEndValue`: after a value or a member name inside an array or
object. -/
def stateEndValue (stack : List Frame) (c : Byte) : Scanner :=
  if isSpace c then ⟨.endValue, stack⟩
  else
    match stack with
    | .object _ (some _) :: _ =>
      if c == ascii ':' then ⟨.beginValue, stack⟩ else Scanner.fail c "after object key"
    | .object done none :: rest =>
      if c == ascii ',' then ⟨.beginString, stack⟩
      else if c == ascii '}' then Scanner.endOfValue rest (.object done.reverse)
      else Scanner.fail c "after object key:value pair"
    | .array done :: rest =>
      if c == ascii ',' then ⟨.beginValue, stack⟩
      else if c == ascii ']' then Scanner.endOfValue rest (.array done.reverse)
      else Scanner.fail c "after array element"
    | [] => Scanner.fail c "after top-level value"

/-- The byte `c` follows a complete value `v`: the value is stored and `c` is
read by `stateEndValue` (or `stateEndTop` at top level). -/
def Scanner.endOfValueThen (stack : List Frame) (v : JSON) (c : Byte) : Scanner :=
  match Scanner.endOfValue stack v with
  | ⟨.endTop d, _⟩ => stateEndTop d c
  | ⟨.endValue, stack1⟩ => stateEndValue stack1 c
  | s => s

/-- Go `stateBeginValue`. -/
def stateBeginValue (stack : List Frame) (c : Byte) : Scanner :=
  if isSpace c then ⟨.beginValue, stack⟩
  else if c == ascii '{' then Scanner.push c (.object [] none) stack .beginStringOrEmpty
  else if c == ascii '[' then Scanner.push c (.array []) stack .beginValueOrEmpty
  else if c == ascii '"' then ⟨.inString false [], stack⟩
  else if c == ascii '-' then ⟨.num .neg [c], stack⟩
  else if c == ascii '0' then ⟨.num .zero [c], stack⟩
  else if c == ascii 't' then
    ⟨.lit "true" [ascii 'r', ascii 'u', ascii 'e'] (.bool true), stack⟩
  else if c == ascii 'f' then
    ⟨.lit "false" [ascii 'a', ascii 'l', ascii 's', ascii 'e'] (.bool false), stack⟩
  else if c == ascii 'n' then ⟨.lit "null" [ascii 'u', ascii 'l', ascii 'l'] .null, stack⟩
  else if ascii '1' ≤ c ∧ c ≤ ascii '9' then ⟨.num .int [c], stack⟩
  else Scanner.fail c "looking for beginning of value"

/-- Go `stateBeginString`. -/
def stateBeginString (stack : List Frame) (c : Byte) : Scanner :=
  if isSpace c then ⟨.beginString, stack⟩
  else if c == ascii '"' then ⟨.inString true [], stack⟩
  else Scanner.fail c "looking for beginning of object key string"

/-- One byte inside a number: the number goes on in a new state, ends before
the byte, or is malformed. -/
inductive NumStep
  | goOn (st : NumState)
  | ended
  | bad (context : String)

/-- The number states of Go's scanner. -/
def numStep (st : NumState) (c : Byte) : NumStep :=
  let digit : Bool := ascii '0' ≤ c ∧ c ≤ ascii '9'
  match st with
  | .neg =>
    if c == ascii '0' then .goOn .zero
    else if ascii '1' ≤ c ∧ c ≤ ascii '9' then .goOn .int
    else .bad "in numeric literal"
  | .int =>
    if digit then .goOn .int
    else if c == ascii '.' then .goOn .dot
    else if c == ascii 'e' || c == ascii 'E' then .goOn .e
    else .ended
  | .zero =>
    if c == ascii '.' then .goOn .dot
    else if c == ascii 'e' || c == ascii 'E' then .goOn .e
    else .ended
  | .dot => if digit then .goOn .frac else .bad "after decimal point in numeric literal"
  | .frac =>
    if digit then .goOn .frac
    else if c == ascii 'e' || c == ascii 'E' then .goOn .e
    else .ended
  | .e =>
    if c == ascii '+' || c == ascii '-' then .goOn .esign
    else if digit then .goOn .exp
    else .bad "in exponent of numeric literal"
  | .esign => if digit then .goOn .exp else .bad "in exponent of numeric literal"
  | .exp => if digit then .goOn .exp else .ended

/-- The scanner reads one byte (Go `s.step(s, c)`). -/
def Scanner.feed (s : Scanner) (c : Byte) : Scanner :=
  match s.step with
  | .error _ => s
  | .beginValue => stateBeginValue s.stack c
  | .beginValueOrEmpty =>
    if isSpace c then s
    else if c == ascii ']' then stateEndValue s.stack c
    else stateBeginValue s.stack c
  | .beginString => stateBeginString s.stack c
  | .beginStringOrEmpty =>
    if isSpace c then s
    else if c == ascii '}' then stateEndValue s.stack c
    else stateBeginString s.stack c
  | .endValue => stateEndValue s.stack c
  | .endTop v => stateEndTop v c
  | .inString isKey raw =>
    if c == ascii '"' then
      let text := unquoteBytes raw.reverse
      if isKey then
        match s.stack with
        | .object done none :: rest => ⟨.endValue, .object done (some text) :: rest⟩
        | _ => ⟨.error "JSON decoder out of sync - data changing underfoot?", []⟩
      else Scanner.endOfValue s.stack (.string text)
    else if c == ascii '\\' then ⟨.inStringEsc isKey raw, s.stack⟩
    else if c.val < 0x20 then Scanner.fail c "in string literal"
    else ⟨.inString isKey (c :: raw), s.stack⟩
  | .inStringEsc isKey raw =>
    if c == ascii 'b' || c == ascii 'f' || c == ascii 'n' || c == ascii 'r' || c == ascii 't'
        || c == ascii '\\' || c == ascii '/' || c == ascii '"' then
      ⟨.inString isKey (c :: ascii '\\' :: raw), s.stack⟩
    else if c == ascii 'u' then ⟨.inStringEscU isKey (c :: ascii '\\' :: raw) 0, s.stack⟩
    else Scanner.fail c "in string escape code"
  | .inStringEscU isKey raw seen =>
    if isHex c then
      if seen = 3 then ⟨.inString isKey (c :: raw), s.stack⟩
      else ⟨.inStringEscU isKey (c :: raw) (seen + 1), s.stack⟩
    else Scanner.fail c "in \\u hexadecimal character escape"
  | .num st raw =>
    match numStep st c with
    | .goOn st1 => ⟨.num st1 (c :: raw), s.stack⟩
    | .ended => Scanner.endOfValueThen s.stack (.number (asciiText raw.reverse)) c
    | .bad context => Scanner.fail c context
  | .lit name rest v =>
    match rest with
    | [] => Scanner.endOfValueThen s.stack v c
    | x :: more =>
      if c == x then
        match more with
        | [] => Scanner.endOfValue s.stack v
        | _ => ⟨.lit name more v, s.stack⟩
      else
        Scanner.fail c
          ("in literal " ++ name ++ " (expecting '" ++ String.mk [Char.ofNat x.val] ++ "')")

/-- Go `checkValid` together with the reading of the document: the scanner
runs over all the bytes and then over one blank (Go `scanner.eof`); the bytes
are a JSON document exactly when that ends at top level. -/
def checkValid (data : List Byte) : Except String JSON :=
  let s := data.foldl Scanner.feed ⟨.beginValue, []⟩
  match s.step with
  | .error msg => .error msg
  | .endTop v => .ok v
  | _ =>
    match (s.feed (ascii ' ')).step with
    | .endTop v => .ok v
    | .error msg => .error msg
    | _ => .error "unexpected end of JSON input"

/-- A Go value the decoder stores in an `interface{}`: `nil`, `bool`,
`float64` (its 64 bits), `string`, `[]interface{}`,
`map[string]interface{}`. -/
inductive GoValue
  | nil
  | bool (b : Bool)
  | float64 (bits : Nat)
  | string (s : String)
  | slice (items : List GoValue)
  | map (entries : List (String × GoValue))
  deriving Repr

/-- A non-nil Go `map[string]interface{}`: its entries, one for each key. -/
abbrev GoMap := List (String × GoValue)

/-- Go `m[k]`, with `none` for an absent key. -/
def GoMap.get (m : GoMap) (k : String) : Option GoValue :=
  match m with
  | [] => none
  | (k1, v1) :: rest => if k1 = k then some v1 else GoMap.get rest k

/-- Go `m[k] = v` on a non-nil map: the entry of `k` is replaced, or added
when the map has none. -/
def GoMap.set (m : GoMap) (k : String) (v : GoValue) : GoMap :=
  match m with
  | [] => [(k, v)]
  | (k1, v1) :: rest => if k1 = k then (k, v) :: rest else (k1, v1) :: GoMap.set rest k v

/-- Whether a byte sequence comes before another in byte-wise lexical
order. -/
def lessBytes : List Byte → List Byte → Bool
  | [], [] => false
  | [], _ :: _ => true
  | _ :: _, [] => false
  | a :: as, b :: bs => if a.val < b.val then true else if b.val < a.val then false
    else lessBytes as bs

/-- Go `strings.Compare(a, b) < 0` on two keys: byte-wise order of the
strings. -/
def keyLess (a b : String) : Bool := lessBytes (utf8Bytes a) (utf8Bytes b)

/-- One step of sorting entries by key: the entry goes before the first entry
with a greater key. -/
def insertEntry (e : String × GoValue) : List (String × GoValue) → List (String × GoValue)
  | [] => [e]
  | h :: t => if keyLess e.1 h.1 then e :: h :: t else h :: insertEntry e t

/-- The entries of a map in the order in which `encoding/json` writes them:
sorted by key. -/
def sortByKey : GoMap → List (String × GoValue)
  | [] => []
  | e :: rest => insertEntry e (sortByKey rest)

/-- Error text of Go `json.UnmarshalTypeError` (without struct and field). -/
def unmarshalTypeError (value type : String) : String :=
  "json: cannot unmarshal " ++ value ++ " into Go value of type " ++ type

mutual
/-- Go `valueInterface`: the Go value of a document, and the type errors met
on the way, in order.  A number is stored as the `float64` that
`strconv.ParseFloat` finds for its literal; a number outside the `float64`
range is a type error and leaves `nil`. -/
def valueInterface (parseFloat : String → Option Nat) : JSON → GoValue × List String
  | .null => (.nil, [])
  | .bool b => (.bool b, [])
  | .number lit =>
    match parseFloat lit with
    | none => (.nil, [unmarshalTypeError ("number " ++ lit) "float64"])
    | some bits => (.float64 bits, [])
  | .string s => (.string s, [])
  | .array items =>
    (.slice (arrayInterface parseFloat items).1, (arrayInterface parseFloat items).2)
  | .object members =>
    (.map (objectInterface parseFloat members []).1,
      (objectInterface parseFloat members []).2)
/-- Go `arrayInterface`: the items of an array. -/
def arrayInterface (parseFloat : String → Option Nat) : List JSON → List GoValue × List String
  | [] => ([], [])
  | v :: rest =>
    ((valueInterface parseFloat v).1 :: (arrayInterface parseFloat rest).1,
      (valueInterface parseFloat v).2 ++ (arrayInterface parseFloat rest).2)
/-- Go `objectInterface`: the members are stored one after the other into the
map `m` (`m[key] = value`), so that a later member replaces an earlier one of
the same name. -/
def objectInterface (parseFloat : String → Option Nat) :
    List (String × JSON) → GoMap → GoMap × List String
  | [], m => (m, [])
  | (k, v) :: rest, m =>
    ((objectInterface parseFloat rest (GoMap.set m k (valueInterface parseFloat v).1)).1,
      (valueInterface parseFloat v).2 ++
        (objectInterface parseFloat rest (GoMap.set m k (valueInterface parseFloat v).1)).2)
end

/-- What `json.Unmarshal(data, &result)` leaves behind when `result` is a nil
`map[string]interface{}`: the variable (`none` is the nil map) and the
returned error. -/
structure Unmarshalled where
  result : Option GoMap
  err : Option String

/-- Go `json.Unmarshal(data, &result)` with `result` a nil
`map[string]interface{}`.  Bytes that are not a JSON document are a syntax
error and nothing is stored.  An object is stored into a fresh map.  The literal `null`
sets the map to nil and is no error.  Any other document does not fit a map:
a type error, and the variable stays nil.  The error returned is the first
one saved. -/
def jsonUnmarshal (sys : World) (data : List Byte) : Unmarshalled :=
  let type := "map[string]interface \x7b\x7d"
  match checkValid data with
  | .error msg => ⟨none, some msg⟩
  | .ok (.object members) =>
    ⟨some (objectInterface sys.parseFloat64 members []).1,
      (objectInterface sys.parseFloat64 members []).2.head?⟩
  | .ok .null => ⟨none, none⟩
  | .ok (.array _) => ⟨none, some (unmarshalTypeError "array" type)⟩
  | .ok (.bool _) => ⟨none, some (unmarshalTypeError "bool" type)⟩
  | .ok (.number _) => ⟨none, some (unmarshalTypeError "number" type)⟩
  | .ok (.string _) => ⟨none, some (unmarshalTypeError "string" type)⟩

/-! ## The Go `net/http` package: what a handler writes -/

/-- `SystemInfo` (lines 16-23); the JSON names of the fields are `podName`,
`nodeName`, `namespace`, `hostIP`, `podIP`, `currentTime`. -/
structure SystemInfo where
  PodName : String
  NodeName : String
  Namespace : String
  HostIP : String
  PodIP : String
  CurrentTime : String
  deriving DecidableEq, Repr

/-- `ExternalIPResponse` (lines 26-29); the JSON names of the fields are `ip`
and `currentTime`.  `IP` holds `string(body)`, a Go string with the bytes of
the body as they came. -/
structure ExternalIPResponse where
  IP : List Byte
  CurrentTime : String
  deriving DecidableEq, Repr

/-- A Go value handed to `json.NewEncoder(w).Encode`. -/
inductive Payload
  | systemInfo (v : SystemInfo)
  | externalIP (v : ExternalIPResponse)
  | mapping (m : GoMap)

/-- The members of the JSON object the encoder writes for a payload, in the
order in which it writes them, each with its name and the value a reader of
the JSON gets: the fields of a struct in declaration order under their JSON
names, the entries of a map sorted by key.  A Go string is written as text,
every byte of it that starts no valid UTF-8 encoding as U+FFFD. -/
def Payload.members : Payload → List (String × GoValue)
  | .systemInfo v =>
    [("podName", .string v.PodName), ("nodeName", .string v.NodeName),
      ("namespace", .string v.Namespace), ("hostIP", .string v.HostIP),
      ("podIP", .string v.PodIP), ("currentTime", .string v.CurrentTime)]
  | .externalIP v => [("ip", .string (textOf v.IP)), ("currentTime", .string v.CurrentTime)]
  | .mapping m => sortByKey m

/-- One write to the response body: text, or the JSON encoding of a Go value
(followed by a line feed, as `Encode` writes it). -/
inductive Written
  | text (s : String)
  | json (v : Payload)

/-- Go `http.ResponseWriter`: the header map, the status code once the header
is written, and the writes to the body in order. -/
structure ResponseWriter where
  header : List (String × String)
  status : Option Nat
  body : List Written

/-- The response writer a handler is called with: nothing set or written. -/
def ResponseWriter.fresh : ResponseWriter := ⟨[], none, []⟩

/-- Go `w.Header().Set(k, v)`. -/
def ResponseWriter.Set (w : ResponseWriter) (k v : String) : ResponseWriter :=
  { w with header := (w.header.filter (fun e => e.1 ≠ k)) ++ [(k, v)] }

/-- Go `w.Header().Get(k)`, the empty string when the header is not set. -/
def ResponseWriter.Get (w : ResponseWriter) (k : String) : String :=
  match w.header.find? (fun e => e.1 = k) with
  | some e => e.2
  | none => ""

/-- Go `w.WriteHeader(code)`: the first call fixes the status. -/
def ResponseWriter.WriteHeader (w : ResponseWriter) (code : Nat) : ResponseWriter :=
  match w.status with
  | none => { w with status := some code }
  | some _ => w

/-- Go `w.Write`: writes the header with status 200 when it is not yet
written, then the data. -/
def ResponseWriter.Write (w : ResponseWriter) (x : Written) : ResponseWriter :=
  { w.WriteHeader 200 with body := w.body ++ [x] }

/-- Go `http.Error(w, error, code)`: a plain-text reply; `fmt.Fprintln` writes
the message followed by a line feed. -/
def httpError (w : ResponseWriter) (error : String) (code : Nat) : ResponseWriter :=
  (((w.Set "Content-Type" "text/plain; charset=utf-8").Set
    "X-Content-Type-Options" "nosniff").WriteHeader code).Write (.text (error ++ "\n"))

/-- Go `http.NotFound`. -/
def httpNotFound (w : ResponseWriter) : ResponseWriter :=
  httpError w "404 page not found" 404

/-- Go `http.Request`, as far as the handlers read it: `r.URL.Path`. -/
structure Request where
  path : String
  deriving DecidableEq, Repr

/-- How a handler call ends: it returns, having written to `w`, or it panics
(the server then drops the connection, and no response is sent for what was
written so far). -/
inductive Outcome
  | returned (w : ResponseWriter)
  | panicked (msg : String)

/-- `os.ReadFile(name)`, logged. -/
def World.ReadFile (sys : World) (name : String) : Sys (Except String String) :=
  ⟨sys.readFile name, [.readFile name]⟩

/-- The three handlers build the same client (lines 138-151, 181-194,
226-239), whose transport takes its proxy from `HTTP_PROXY` as read at the
time of the call (the source hands the string itself to `http.ProxyURL`), and
call `client.Get(url)` on it once; logged. -/
def World.Get (sys : World) (url : String) : Sys (Except String HTTPResponse) :=
  ⟨sys.clientGet (sys.getenv "HTTP_PROXY") url, [.clientGet (sys.getenv "HTTP_PROXY") url]⟩

/-- `io.ReadAll(resp.Body)`, logged. -/
def World.ReadAll (_sys : World) (url : String) (resp : HTTPResponse) :
    Sys (Except String (List Byte)) :=
  ⟨resp.body, [.readAll url]⟩

/-! ## `main.go`: start-up and the handlers -/

/-- The package-level variable initialisers (lines 39-46). -/
def initGlobals (sys : World) : Globals :=
  { podName := sys.getenv "POD_NAME"
    ifaceName := sys.getenv "HOST_INTERFACE"
    namespace_ := sys.getenv "POD_NAMESPACE"
    nodeName := sys.getenv "NODE_NAME"
    proxyURL := sys.getenv "PROXY_URL"
    proxyConfig := sys.getenv "PROXY_CONFIG" }

/-- The defaulting step of `main` (lines 49-64). -/
def setDefaults (g : Globals) : Globals :=
  let g := if g.podName = "" then { g with podName := "unknown-pod" } else g
  let g := if g.namespace_ = "" then { g with namespace_ := "unknown-namespace" } else g
  let g := if g.nodeName = "" then { g with nodeName := "unknown-node" } else g
  let g := if g.proxyURL = "" then { g with proxyURL := "http://172.16.28.8:3128" } else g
  if g.proxyConfig = "" then
    { g with proxyConfig := "HTTP_PROXY and HTTPS_PROXY environment variables" }
  else g

/-- The listen port of `main` (lines 80-83). -/
def listenPort (sys : World) : String :=
  if sys.getenv "PORT" ≠ "" then sys.getenv "PORT" else "8080"

/-- The configuration `main` serves with: the package-level variables after
initialisation and defaulting, and the port. -/
def mainConfig (sys : World) : Globals × String :=
  (setDefaults (initGlobals sys), listenPort sys)

/-- `replacePlaceholder` (lines 326-328): Go `strings.ReplaceAll`. -/
def replacePlaceholder (content placeholder value : String) : String :=
  content.replace placeholder value

/-- `handleIndex` (lines 89-112). -/
def handleIndex (g : Globals) (sys : World) (w : ResponseWriter) (r : Request) : Sys Outcome :=
  if r.path ≠ "/" then pure (.returned (httpNotFound w))
  else do
    match ← sys.ReadFile "static/index.html" with
    | .error _ => pure (.returned (httpError w "Demo application is running" 200))
    | .ok content =>
      let replaced := content
      let replaced := replacePlaceholder replaced "POD_NAME_PLACEHOLDER" g.podName
      let replaced := replacePlaceholder replaced "NODE_NAME_PLACEHOLDER" g.nodeName
      let replaced := replacePlaceholder replaced "NAMESPACE_PLACEHOLDER" g.namespace_
      let replaced := replacePlaceholder replaced "PROXY_URL_PLACEHOLDER" g.proxyURL
      pure (.returned ((w.Set "Content-Type" "text/html; charset=utf-8").Write (.text replaced)))

/-- `handleSystemInfo` (lines 114-134). -/
def handleSystemInfo (g : Globals) (sys : World) (w : ResponseWriter) (_r : Request) :
    Sys Outcome := do
  let hostIP ← getHostIP g sys
  let podIP ← getPodIP g sys
  let info : SystemInfo :=
    { PodName := g.podName
      NodeName := g.nodeName
      Namespace := g.namespace_
      HostIP := hostIP
      PodIP := podIP
      CurrentTime := sys.now }
  pure (.returned ((w.Set "Content-Type" "application/json").Write (.json (.systemInfo info))))

/-- `handleExternalIP` (lines 136-177). -/
def handleExternalIP (_g : Globals) (sys : World) (w : ResponseWriter) (_r : Request) :
    Sys Outcome := do
  match ← sys.Get "https://api.ipify.org" with
  | .error err =>
    pure (.returned (httpError w ("Error getting external IP: " ++ err) 500))
  | .ok resp =>
    match ← sys.ReadAll "https://api.ipify.org" resp with
    | .error err => pure (.returned (httpError w ("Error reading response: " ++ err) 500))
    | .ok body =>
      let response : ExternalIPResponse := { IP := body, CurrentTime := sys.now }
      pure (.returned
        ((w.Set "Content-Type" "application/json").Write (.json (.externalIP response))))

/-- Lines 211-221 of `handleIPInfo` and, identically, 256-266 of
`handleHTTPBin`: decode the body into a nil map, store the time stamp in the
map, encode the map.  Storing into a map that is still nil panics. -/
def annotate (sys : World) (w : ResponseWriter) (body : List Byte) : Outcome :=
  match (jsonUnmarshal sys body).err with
  | some err => .returned (httpError w ("Error parsing response: " ++ err) 500)
  | none =>
    match (jsonUnmarshal sys body).result with
    | none => .panicked "assignment to entry in nil map"
    | some result =>
      let result := GoMap.set result "currentTime" (.string sys.now)
      .returned ((w.Set "Content-Type" "application/json").Write (.json (.mapping result)))

/-- `handleIPInfo` (lines 179-222). -/
def handleIPInfo (_g : Globals) (sys : World) (w : ResponseWriter) (_r : Request) :
    Sys Outcome := do
  match ← sys.Get "https://ipinfo.io/json" with
  | .error err =>
    pure (.returned (httpError w ("Error connecting to ipinfo.io: " ++ err) 500))
  | .ok resp =>
    match ← sys.ReadAll "https://ipinfo.io/json" resp with
    | .error err => pure (.returned (httpError w ("Error reading response: " ++ err) 500))
    | .ok body => pure (annotate sys w body)

/-- `handleHTTPBin` (lines 224-267). -/
def handleHTTPBin (_g : Globals) (sys : World) (w : ResponseWriter) (_r : Request) :
    Sys Outcome := do
  match ← sys.Get "https://httpbin.org/json" with
  | .error err =>
    pure (.returned (httpError w ("Error connecting to httpbin.org: " ++ err) 500))
  | .ok resp =>
    match ← sys.ReadAll "https://httpbin.org/json" resp with
    | .error err => pure (.returned (httpError w ("Error reading response: " ++ err) 500))
    | .ok body => pure (annotate sys w body)

/-! ## The words of the specification -/

/-- An entry of an address list is an IPv4 non-loopback address when it is an
interface address with its network (`*net.IPNet`, the type under which the
`net` package lists the unicast addresses of an interface), the address has a
4-byte form and is not a loopback address. -/
def Addr.isIPv4NonLoopback : Addr → Bool
  | .ipNet ip _ => ip.To4.isSome && !ip.IsLoopback
  | .other _ _ => false

/-- The textual form of an entry of an address list. -/
def Addr.text : Addr → String
  | .ipNet ip _ => ip.String
  | .other _ text => text

/-- The named-interface step of the host address resolution yields nothing:
no interface is configured, or the lookup fails, or the listing of its
addresses fails, or the list has no IPv4 non-loopback address. -/
def namedStepYieldsNothing (g : Globals) (sys : World) : Bool :=
  g.ifaceName = "" ||
    match sys.interfaceByName g.ifaceName with
    | .error _ => true
    | .ok iface =>
      match iface.addrs with
      | .error _ => true
      | .ok addrs => addrs.all (fun a => !a.isIPv4NonLoopback)

/-- The reference definition of the pod address: the override when it is not
empty; else the text of the first IPv4 non-loopback address of the
enumeration, when the enumeration succeeds and has one; else the sentinel. -/
def getPodIPSpec (sys : World) : String :=
  if sys.getenv "POD_IP" ≠ "" then sys.getenv "POD_IP"
  else
    match sys.interfaceAddrs with
    | .error _ => "unknown"
    | .ok addrs =>
      match addrs.find? Addr.isIPv4NonLoopback with
      | some a => a.text
      | none => "unknown"

/-- Whether an event is a dial. -/
def Event.isDial : Event → Bool
  | .dial _ _ => true
  | _ => false

/-- Whether an event is an outbound HTTP request. -/
def Event.isClientGet : Event → Bool
  | .clientGet _ _ => true
  | _ => false

/-- What the outbound request of a handler brings back: the body, when the
GET succeeds and the body is read in full. -/
def World.fetched (sys : World) (url : String) : Option (List Byte) :=
  match sys.clientGet (sys.getenv "HTTP_PROXY") url with
  | .error _ => none
  | .ok resp =>
    match resp.body with
    | .error _ => none
    | .ok body => some body

/-- The status code sent. -/
def Outcome.status : Outcome → Option Nat
  | .returned w => w.status
  | .panicked _ => none

/-- The `Content-Type` of the response. -/
def Outcome.contentType : Outcome → String
  | .returned w => w.Get "Content-Type"
  | .panicked _ => ""

/-- The body of the response when it is plain text written at once. -/
def Outcome.textBody : Outcome → Option String
  | .returned ⟨_, _, [.text s]⟩ => some s
  | _ => none

/-- The members of the JSON object that is the body of the response, when the
body is one JSON encoding. -/
def Outcome.jsonMembers : Outcome → Option (List (String × GoValue))
  | .returned ⟨_, _, [.json v]⟩ => some v.members
  | _ => none

/-- The text of a Go value that is a string. -/
def GoValue.text : GoValue → Option String
  | .string s => some s
  | _ => none

/-- The text of a string member of the JSON object that is the body of the
response, as a reader of the JSON gets it. -/
def Outcome.jsonText (o : Outcome) (name : String) : Option String :=
  match o.jsonMembers with
  | none => none
  | some ms =>
    match GoMap.get ms name with
    | some v => v.text
    | none => none

/-- The three endpoints that fetch from upstream. -/
inductive Endpoint
  | externalIP
  | ipInfo
  | httpBin
  deriving DecidableEq, Repr

/-- The handler of an endpoint. -/
def Endpoint.handler : Endpoint → Globals → World → ResponseWriter → Request → Sys Outcome
  | .externalIP => handleExternalIP
  | .ipInfo => handleIPInfo
  | .httpBin => handleHTTPBin

/-- The URL an endpoint fetches. -/
def Endpoint.url : Endpoint → String
  | .externalIP => "https://api.ipify.org"
  | .ipInfo => "https://ipinfo.io/json"
  | .httpBin => "https://httpbin.org/json"

/-- The upstream failure of an endpoint in a world, as the stage that failed
and the message of the underlying error: the outbound GET, the reading of the
body, or (not for the external-IP endpoint) the decoding of the body as JSON.
`none` when no stage fails. -/
def upstreamFailure (ep : Endpoint) (sys : World) : Option (String × String) :=
  match sys.clientGet (sys.getenv "HTTP_PROXY") ep.url with
  | .error err => some ("get", err)
  | .ok resp =>
    match resp.body with
    | .error err => some ("read", err)
    | .ok body =>
      match ep with
      | .externalIP => none
      | _ => (jsonUnmarshal sys body).err.map (fun err => ("decode", err))

/-- The text a handler puts in front of the error message, by endpoint and
failed stage. -/
def errorPrefix : Endpoint → String → String
  | .externalIP, "get" => "Error getting external IP: "
  | .ipInfo, "get" => "Error connecting to ipinfo.io: "
  | .httpBin, "get" => "Error connecting to httpbin.org: "
  | _, "read" => "Error reading response: "
  | _, _ => "Error parsing response: "

/-! ## Concrete inputs -/

/-- Go `strconv.ParseFloat` on the number literals of the sample bodies:
`1e999` is out of range, `1` is the `float64` with bits `0x3FF0000000000000`
and `0` the one with all bits zero (which here also answers for literals that
the samples do not contain). -/
def sampleParseFloat (lit : String) : Option Nat :=
  if lit = "1e999" then none
  else if lit = "1" then some 0x3FF0000000000000
  else some 0

/-- A world in which nothing is set and every operation on the outside
fails. -/
def World.bare : World :=
  { getenv := fun _ => ""
    interfaceByName := fun _ => .error "route ip+net: no such network interface"
    interfaceAddrs := .error "route ip+net: netlinkrib: operation not permitted"
    dial := fun _ _ => .error "dial udp 8.8.8.8:80: connect: network is unreachable"
    readFile := fun _ => .error "open static/index.html: no such file or directory"
    now := "2024-05-01T12:00:00Z"
    clientGet := fun _ _ => .error "proxyconnect tcp: dial tcp 172.16.28.8:3128: i/o timeout"
    parseFloat64 := sampleParseFloat }

/-- Package-level variables after defaulting, with interface `eth0`. -/
def Globals.sample : Globals :=
  { podName := "demo-pod"
    ifaceName := "eth0"
    namespace_ := "tenant-a"
    nodeName := "node-1"
    proxyURL := "http://172.16.28.8:3128"
    proxyConfig := "HTTP_PROXY and HTTPS_PROXY environment variables" }

/-- A world with `HOST_IP=203.0.113.5`. -/
def World.hostOverride : World :=
  { World.bare with getenv := fun k => if k = "HOST_IP" then "203.0.113.5" else "" }

/-- The address list of the sample interface: the loopback address, an IPv6
address, an address of another dynamic type, then `10.0.0.7` (in the 16-byte
form the `net` package builds on Linux) and `10.0.0.8`. -/
def sampleAddrs : List Addr :=
  [.ipNet ⟨[127, 0, 0, 1]⟩ [255, 0, 0, 0],
    .ipNet ⟨[0xfe, 0x80, 0, 0, 0, 0, 0, 0, 0, 0, 0, 0, 0, 0, 0, 1]⟩ [],
    .other "ip" "192.0.2.1",
    .ipNet ⟨[0, 0, 0, 0, 0, 0, 0, 0, 0, 0, 0xff, 0xff, 10, 0, 0, 7]⟩ [255, 255, 255, 0],
    .ipNet ⟨[10, 0, 0, 8]⟩ [255, 255, 255, 0]]

/-- A world with interface `eth0` carrying `sampleAddrs`, and a dial that
succeeds with local address `192.168.7.9`. -/
def World.withEth0 : World :=
  { World.bare with
    interfaceByName := fun n =>
      if n = "eth0" then .ok ⟨"eth0", .ok sampleAddrs⟩
      else .error "route ip+net: no such network interface"
    interfaceAddrs := .ok sampleAddrs
    dial := fun _ _ => .ok ⟨⟨[192, 168, 7, 9]⟩, 40000⟩ }

/-- A world without interface `eth0` in which the dial succeeds with local
address `192.168.7.9`. -/
def World.dialOnly : World :=
  { World.bare with dial := fun _ _ => .ok ⟨⟨[192, 168, 7, 9]⟩, 40000⟩ }

/-- A world whose upstream answers every GET with the given status code and
body. -/
def World.upstream (code : Nat) (body : List Byte) : World :=
  { World.bare with clientGet := fun _ _ => .ok ⟨code, .ok body⟩ }

/-- A world whose upstream answers, with a body that cannot be read to the
end. -/
def World.brokenBody : World :=
  { World.bare with clientGet := fun _ _ => .ok ⟨200, .error "unexpected EOF"⟩ }

/-- A request for a path. -/
def Request.sample : Request := ⟨"/"⟩

/-- The four bytes `null`. -/
def bodyNull : List Byte := utf8Bytes "null"

/-- An upstream body that is not JSON. -/
def bodyHTML : List Byte := utf8Bytes "<html>"

/-- An upstream body with white space around an address. -/
def bodyPadded : List Byte := utf8Bytes " 198.51.100.7\n"

/-- An upstream body that is not valid UTF-8: the bytes `ff fe` followed by
the ASCII text `1.2.3.4`. -/
def bodyNotUTF8 : List Byte := [0xff, 0xfe, 0x31, 0x2e, 0x32, 0x2e, 0x33, 0x2e, 0x34]

/-! ## Lemmas on the address loop -/

theorem firstIPv4_eq_find (addrs : List Addr) :
    firstIPv4 addrs = (addrs.find? Addr.isIPv4NonLoopback).map Addr.text := by
  induction addrs with
  | nil => rfl
  | cons a rest ih =>
    cases a with
    | ipNet ip mask =>
      cases hl : ip.IsLoopback <;> cases h4 : ip.To4 <;>
        simp [firstIPv4, Addr.isIPv4NonLoopback, Addr.text, List.find?, hl, h4, ih]
    | other n t => simp [firstIPv4, Addr.isIPv4NonLoopback, List.find?, ih]

theorem firstIPv4_skip (pre : List Addr) (rest : List Addr)
    (h : ∀ x ∈ pre, x.isIPv4NonLoopback = false) :
    firstIPv4 (pre ++ rest) = firstIPv4 rest := by
  induction pre with
  | nil => rfl
  | cons a pre ih =>
    have ha : a.isIPv4NonLoopback = false := h a (List.mem_cons_self _ _)
    have ih1 := ih (fun x hx => h x (List.mem_cons_of_mem _ hx))
    cases a with
    | ipNet ip mask =>
      cases hl : ip.IsLoopback <;> cases h4 : ip.To4 <;>
        simp_all [firstIPv4, Addr.isIPv4NonLoopback]
    | other n t => simpa [firstIPv4] using ih1

theorem firstIPv4_hit (a : Addr) (post : List Addr) (h : a.isIPv4NonLoopback = true) :
    firstIPv4 (a :: post) = some a.text := by
  cases a with
  | ipNet ip mask =>
    cases hl : ip.IsLoopback <;> cases h4 : ip.To4 <;>
      simp_all [firstIPv4, Addr.isIPv4NonLoopback, Addr.text]
  | other n t => simp [Addr.isIPv4NonLoopback] at h

theorem firstIPv4_none (addrs : List Addr)
    (h : addrs.all (fun a => !a.isIPv4NonLoopback) = true) : firstIPv4 addrs = none := by
  have h1 : ∀ x ∈ addrs, x.isIPv4NonLoopback = false := by
    intro x hx
    have := List.all_eq_true.mp h x hx
    simpa using this
  have := firstIPv4_skip addrs [] h1
  simpa [firstIPv4] using this

/-- The 4-byte form of an address has four bytes, and the text of an address
with a 4-byte form is the dotted-decimal text of these. -/
theorem IP.String_of_To4 (ip q : IP) (h : ip.To4 = some q) :
    ∃ a b c d : Byte, q.bytes = [a, b, c, d] ∧ ip.String = string4 a b c d := by
  have hq : q.bytes.length = 4 := by
    unfold IP.To4 at h
    split at h
    · cases h; assumption
    · split at h
      · rename_i h16
        cases h
        simp only [Bool.and_eq_true, decide_eq_true_eq] at h16
        simp [h16.1.1.1]
      · cases h
  obtain ⟨bs⟩ := q
  match bs, hq with
  | [a, b, c, d], _ =>
    refine ⟨a, b, c, d, rfl, ?_⟩
    have hlen : ip.bytes.length = 4 ∨ ip.bytes.length = 16 := by
      unfold IP.To4 at h
      split at h
      · left; assumption
      · split at h
        · rename_i h16
          simp only [Bool.and_eq_true, decide_eq_true_eq] at h16
          right; exact h16.1.1.1
        · cases h
    unfold IP.String
    rw [h]
    rcases hlen with h4 | h16
    · simp [h4]
    · simp [h16]

/-! ## Lemmas on sequencing -/

@[simp] theorem Sys.val_pure {α : Type} (a : α) : (pure a : Sys α).val = a := rfl

@[simp] theorem Sys.log_pure {α : Type} (a : α) : (pure a : Sys α).log = [] := rfl

@[simp] theorem Sys.val_bind {α β : Type} (m : Sys α) (f : α → Sys β) :
    (m >>= f).val = (f m.val).val := rfl

@[simp] theorem Sys.log_bind {α β : Type} (m : Sys α) (f : α → Sys β) :
    (m >>= f).log = m.log ++ (f m.val).log := rfl

/-- The named-interface step as a function of the world. -/
theorem namedInterfaceStep_val (g : Globals) (sys : World) :
    (namedInterfaceStep g sys).val =
      if g.ifaceName = "" then none
      else
        match sys.interfaceByName g.ifaceName with
        | .error _ => none
        | .ok iface =>
          match iface.addrs with
          | .error _ => none
          | .ok addrs => firstIPv4 addrs := by
  unfold namedInterfaceStep
  by_cases hn : g.ifaceName = ""
  · simp [hn]
  · simp only [hn, ne_eq, not_false_eq_true, if_true, if_false, Sys.val_bind]
    simp only [World.InterfaceByName]
    cases h1 : sys.interfaceByName g.ifaceName with
    | error e => rfl
    | ok iface =>
      simp only [Sys.val_bind, World.Addrs]
      cases h2 : iface.addrs <;> rfl

/-- The named-interface step never dials. -/
theorem namedInterfaceStep_no_dial (g : Globals) (sys : World) :
    ∀ e ∈ (namedInterfaceStep g sys).log, e.isDial = false := by
  unfold namedInterfaceStep
  by_cases hn : g.ifaceName = ""
  · simp [hn]
  · simp only [hn, ne_eq, not_false_eq_true, if_true, Sys.log_bind, World.InterfaceByName]
    cases h1 : sys.interfaceByName g.ifaceName with
    | error e => simp [Event.isDial]
    | ok iface =>
      simp only [Sys.log_bind, World.Addrs]
      cases h2 : iface.addrs <;> simp [Event.isDial]

/-! ## The claims on `getHostIP` and `getPodIP` -/

/-- C1: when `HOST_IP` has a non-empty value `v`, `getHostIP` returns exactly
`v`, whatever the configured interface name, the outcome of the interface
lookup and the outcome of the UDP dial; no operation on the outside is
performed. -/
theorem getHostIP_override (v : String) (g : Globals) (sys : World)
    (hv : sys.getenv "HOST_IP" = v) (hne : v ≠ "") :
    (getHostIP g sys).val = v ∧ (getHostIP g sys).log = [] := by
  subst hv
  unfold getHostIP
  simp [hne]

theorem getHostIP_override_witness :
    (getHostIP Globals.sample World.hostOverride).val = "203.0.113.5" ∧
      (getHostIP Globals.sample World.hostOverride).log = [] :=
  getHostIP_override "203.0.113.5" Globals.sample World.hostOverride (by decide) (by decide)

/-- C2: when `HOST_IP` is empty, an interface name is configured, the lookup
and the address listing succeed, and the list is `pre ++ a :: post` with `a`
its first IPv4 non-loopback address, `getHostIP` returns the text of `a`, which
is the dotted-decimal text of the four bytes of its IPv4 form; the entries of
`pre` are skipped, `post` is ignored, and no dial is made. -/
theorem getHostIP_named_interface (g : Globals) (sys : World) (iface : Interface)
    (pre post : List Addr) (a : Addr)
    (hhost : sys.getenv "HOST_IP" = "") (hname : g.ifaceName ≠ "")
    (hlookup : sys.interfaceByName g.ifaceName = .ok iface)
    (haddrs : iface.addrs = .ok (pre ++ a :: post))
    (hpre : ∀ x ∈ pre, x.isIPv4NonLoopback = false)
    (ha : a.isIPv4NonLoopback = true) :
    (getHostIP g sys).val = a.text ∧
      (∃ ip mask b0 b1 b2 b3, a = .ipNet ip mask ∧ ip.To4 = some ⟨[b0, b1, b2, b3]⟩ ∧
        a.text = string4 b0 b1 b2 b3) ∧
      (∀ e ∈ (getHostIP g sys).log, e.isDial = false) := by
  have hstep : (namedInterfaceStep g sys).val = some a.text := by
    rw [namedInterfaceStep_val, if_neg hname, hlookup]
    simp only [haddrs]
    rw [firstIPv4_skip pre _ hpre, firstIPv4_hit a post ha]
  refine ⟨?_, ?_, ?_⟩
  · unfold getHostIP
    simp [hhost, hstep]
  · cases a with
    | other n t => simp [Addr.isIPv4NonLoopback] at ha
    | ipNet ip mask =>
      simp only [Addr.isIPv4NonLoopback, Bool.and_eq_true, Option.isSome_iff_exists] at ha
      obtain ⟨⟨q, hq⟩, -⟩ := ha
      obtain ⟨b0, b1, b2, b3, hb, hs⟩ := IP.String_of_To4 ip q hq
      refine ⟨ip, mask, b0, b1, b2, b3, rfl, ?_, hs⟩
      rw [hq]
      congr 1
      cases q
      simpa using hb
  · intro e he
    unfold getHostIP at he
    simp only [hhost, ne_eq, not_true_eq_false, if_false, Sys.log_bind, hstep,
      Sys.log_pure, List.append_nil] at he
    exact namedInterfaceStep_no_dial g sys e he

theorem getHostIP_named_interface_witness :
    ((getHostIP Globals.sample World.withEth0).val =
        (Addr.ipNet ⟨[0, 0, 0, 0, 0, 0, 0, 0, 0, 0, 0xff, 0xff, 10, 0, 0, 7]⟩
          [255, 255, 255, 0]).text ∧
      (∃ ip mask b0 b1 b2 b3,
        Addr.ipNet ⟨[0, 0, 0, 0, 0, 0, 0, 0, 0, 0, 0xff, 0xff, 10, 0, 0, 7]⟩ [255, 255, 255, 0]
          = .ipNet ip mask ∧ ip.To4 = some ⟨[b0, b1, b2, b3]⟩ ∧
        (Addr.ipNet ⟨[0, 0, 0, 0, 0, 0, 0, 0, 0, 0, 0xff, 0xff, 10, 0, 0, 7]⟩
          [255, 255, 255, 0]).text = string4 b0 b1 b2 b3) ∧
      (∀ e ∈ (getHostIP Globals.sample World.withEth0).log, e.isDial = false)) ∧
    (getHostIP Globals.sample World.withEth0).val = "10.0.0.7" :=
  ⟨getHostIP_named_interface Globals.sample World.withEth0 ⟨"eth0", .ok sampleAddrs⟩
      [.ipNet ⟨[127, 0, 0, 1]⟩ [255, 0, 0, 0],
        .ipNet ⟨[0xfe, 0x80, 0, 0, 0, 0, 0, 0, 0, 0, 0, 0, 0, 0, 0, 1]⟩ [],
        .other "ip" "192.0.2.1"]
      [.ipNet ⟨[10, 0, 0, 8]⟩ [255, 255, 255, 0]]
      (.ipNet ⟨[0, 0, 0, 0, 0, 0, 0, 0, 0, 0, 0xff, 0xff, 10, 0, 0, 7]⟩ [255, 255, 255, 0])
      (by decide) (by decide) rfl rfl (by decide) (by decide),
    by decide⟩

/-- When the named-interface step yields nothing in the words of the
specification, the code's step returns nothing. -/
theorem namedInterfaceStep_none (g : Globals) (sys : World)
    (h : namedStepYieldsNothing g sys = true) : (namedInterfaceStep g sys).val = none := by
  rw [namedInterfaceStep_val]
  by_cases hn : g.ifaceName = ""
  · simp [hn]
  · rw [if_neg hn]
    unfold namedStepYieldsNothing at h
    simp only [hn, decide_False, Bool.false_or] at h
    cases h1 : sys.interfaceByName g.ifaceName with
    | error e => rfl
    | ok iface =>
      rw [h1] at h
      cases h2 : iface.addrs with
      | error e => simp only [h2]
      | ok addrs =>
        simp only [h2] at h ⊢
        exact firstIPv4_none addrs h

/-- C3: when `HOST_IP` is empty and the named-interface step yields nothing
(no interface configured, lookup failed, listing failed, or no IPv4
non-loopback address in the list), `getHostIP` returns the text of the local
address of the UDP dial to `8.8.8.8:80` when the dial succeeds and `unknown`
when it fails.  `getHostIP` is a total function into strings. -/
theorem getHostIP_fallback (g : Globals) (sys : World)
    (hhost : sys.getenv "HOST_IP" = "") (hstep : namedStepYieldsNothing g sys = true) :
    (∀ localAddr, sys.dial "udp" "8.8.8.8:80" = .ok localAddr →
        (getHostIP g sys).val = localAddr.ip.String) ∧
      (∀ err, sys.dial "udp" "8.8.8.8:80" = .error err →
        (getHostIP g sys).val = "unknown") := by
  have hnone := namedInterfaceStep_none g sys hstep
  constructor
  · intro localAddr hd
    unfold getHostIP
    simp [hhost, hnone, World.Dial, hd]
  · intro err hd
    unfold getHostIP
    simp [hhost, hnone, World.Dial, hd]

theorem getHostIP_fallback_witness :
    ((∀ localAddr, World.dialOnly.dial "udp" "8.8.8.8:80" = .ok localAddr →
        (getHostIP Globals.sample World.dialOnly).val = localAddr.ip.String) ∧
      (∀ err, World.dialOnly.dial "udp" "8.8.8.8:80" = .error err →
        (getHostIP Globals.sample World.dialOnly).val = "unknown")) ∧
    (getHostIP Globals.sample World.dialOnly).val = "192.168.7.9" ∧
    (getHostIP Globals.sample World.bare).val = "unknown" :=
  ⟨getHostIP_fallback Globals.sample World.dialOnly (by decide) (by decide),
    (getHostIP_fallback Globals.sample World.dialOnly (by decide) (by decide)).1 _ rfl,
    (getHostIP_fallback Globals.sample World.bare (by decide) (by decide)).2 _ rfl⟩

/-- C4: `getPodIP` returns what its reference definition says, for every
environment and interface state: `POD_IP` when it is not empty; else the text
of the first IPv4 non-loopback address of the enumeration when the enumeration
succeeds and has one; else `unknown`.  Neither the package-level variables
(the interface name among them) nor the value of `HOST_INTERFACE` in the
environment change the result. -/
theorem getPodIP_eq_spec (g : Globals) (sys : World) :
    (getPodIP g sys).val = getPodIPSpec sys ∧
      (∀ (g1 : Globals) (name : String),
        (getPodIP g1
          { sys with getenv := fun k => if k = "HOST_INTERFACE" then name else sys.getenv k }).val
          = (getPodIP g sys).val) := by
  have key : ∀ (g0 : Globals) (s0 : World), (getPodIP g0 s0).val = getPodIPSpec s0 := by
    intro g0 s0
    unfold getPodIP getPodIPSpec
    by_cases hp : s0.getenv "POD_IP" = ""
    · simp only [hp, ne_eq, not_true_eq_false, if_false, Sys.val_bind, World.InterfaceAddrs]
      cases h1 : s0.interfaceAddrs with
      | error e => rfl
      | ok addrs =>
        simp only [firstIPv4_eq_find]
        cases h2 : addrs.find? Addr.isIPv4NonLoopback <;> rfl
    · simp [hp]
  refine ⟨key g sys, ?_⟩
  intro g1 name
  rw [key, key]
  have hk : ("POD_IP" = "HOST_INTERFACE") = False := by decide
  simp [getPodIPSpec, hk]

/-- C9: after the defaulting step of `main`, each of pod name, namespace, node
name, proxy URL, proxy-configuration description and listen port is the value
of its environment variable when that is not empty, and its default otherwise;
none of the six is the empty string. -/
theorem mainConfig_defaults (sys : World) :
    ((mainConfig sys).1.podName =
        if sys.getenv "POD_NAME" ≠ "" then sys.getenv "POD_NAME" else "unknown-pod") ∧
      ((mainConfig sys).1.namespace_ =
        if sys.getenv "POD_NAMESPACE" ≠ "" then sys.getenv "POD_NAMESPACE"
        else "unknown-namespace") ∧
      ((mainConfig sys).1.nodeName =
        if sys.getenv "NODE_NAME" ≠ "" then sys.getenv "NODE_NAME" else "unknown-node") ∧
      ((mainConfig sys).1.proxyURL =
        if sys.getenv "PROXY_URL" ≠ "" then sys.getenv "PROXY_URL"
        else "http://172.16.28.8:3128") ∧
      ((mainConfig sys).1.proxyConfig =
        if sys.getenv "PROXY_CONFIG" ≠ "" then sys.getenv "PROXY_CONFIG"
        else "HTTP_PROXY and HTTPS_PROXY environment variables") ∧
      ((mainConfig sys).2 = if sys.getenv "PORT" ≠ "" then sys.getenv "PORT" else "8080") ∧
      (mainConfig sys).1.podName ≠ "" ∧ (mainConfig sys).1.namespace_ ≠ "" ∧
      (mainConfig sys).1.nodeName ≠ "" ∧ (mainConfig sys).1.proxyURL ≠ "" ∧
      (mainConfig sys).1.proxyConfig ≠ "" ∧ (mainConfig sys).2 ≠ "" := by
  have d1 : ("unknown-pod" = "") = False := by decide
  have d2 : ("unknown-namespace" = "") = False := by decide
  have d3 : ("unknown-node" = "") = False := by decide
  have d4 : ("http://172.16.28.8:3128" = "") = False := by decide
  have d5 : ("HTTP_PROXY and HTTPS_PROXY environment variables" = "") = False := by decide
  have d6 : ("8080" = "") = False := by decide
  simp only [mainConfig, setDefaults, initGlobals, listenPort]
  by_cases h1 : sys.getenv "POD_NAME" = "" <;>
  by_cases h2 : sys.getenv "POD_NAMESPACE" = "" <;>
  by_cases h3 : sys.getenv "NODE_NAME" = "" <;>
  by_cases h4 : sys.getenv "PROXY_URL" = "" <;>
  by_cases h5 : sys.getenv "PROXY_CONFIG" = "" <;>
  by_cases h6 : sys.getenv "PORT" = "" <;>
  simp [h1, h2, h3, h4, h5, h6, d1, d2, d3, d4, d5, d6]

/-! ## Lemmas on UTF-8 -/

theorem ofNat_eq_of_toNat (c : Char) (n : Nat) (h : n = c.toNat) : Char.ofNat n = c := by
  subst h
  exact Char.ofNat_toNat c

theorem byte_val (n : Nat) (h : n < 256) : (byte n).val = n := Nat.mod_eq_of_lt h

theorem decodeRune_two (p0 b1 : Byte) (rest : List Byte) (lo hi : Nat)
    (hp : ¬ p0.val < 0x80) (hl : leadInfo p0 = some (2, lo, hi))
    (h1 : ¬ (b1.val < lo ∨ hi < b1.val)) :
    decodeRune (p0 :: b1 :: rest) = (Char.ofNat (p0.val % 32 * 64 + b1.val % 64), 2) := by
  simp [decodeRune, hp, hl, h1]

theorem decodeRune_three (p0 b1 b2 : Byte) (rest : List Byte) (lo hi : Nat)
    (hp : ¬ p0.val < 0x80) (hl : leadInfo p0 = some (3, lo, hi))
    (h1 : ¬ (b1.val < lo ∨ hi < b1.val)) (h2 : ¬ (b2.val < 0x80 ∨ 0xBF < b2.val)) :
    decodeRune (p0 :: b1 :: b2 :: rest) =
      (Char.ofNat (p0.val % 16 * 4096 + b1.val % 64 * 64 + b2.val % 64), 3) := by
  simp [decodeRune, hp, hl, h1, h2]

theorem decodeRune_four (p0 b1 b2 b3 : Byte) (rest : List Byte) (lo hi : Nat)
    (hp : ¬ p0.val < 0x80) (hl : leadInfo p0 = some (4, lo, hi))
    (h1 : ¬ (b1.val < lo ∨ hi < b1.val)) (h2 : ¬ (b2.val < 0x80 ∨ 0xBF < b2.val))
    (h3 : ¬ (b3.val < 0x80 ∨ 0xBF < b3.val)) :
    decodeRune (p0 :: b1 :: b2 :: b3 :: rest) =
      (Char.ofNat (p0.val % 8 * 262144 + b1.val % 64 * 4096 + b2.val % 64 * 64 + b3.val % 64),
        4) := by
  simp [decodeRune, hp, hl, h1, h2, h3]

theorem leadInfo_of_val (p0 : Byte) (n : Nat) (h : p0.val = n) :
    leadInfo p0 =
      if 0xC2 ≤ n ∧ n ≤ 0xDF then some (2, 0x80, 0xBF)
      else if n = 0xE0 then some (3, 0xA0, 0xBF)
      else if n = 0xED then some (3, 0x80, 0x9F)
      else if 0xE1 ≤ n ∧ n ≤ 0xEF then some (3, 0x80, 0xBF)
      else if n = 0xF0 then some (4, 0x90, 0xBF)
      else if 0xF1 ≤ n ∧ n ≤ 0xF3 then some (4, 0x80, 0xBF)
      else if n = 0xF4 then some (4, 0x80, 0x8F)
      else none := by
  subst h
  rfl

theorem decodeRune_encodeRune (c : Char) (rest : List Byte) :
    decodeRune (encodeRune c ++ rest) = (c, (encodeRune c).length) := by
  have hv : c.toNat < 0xD800 ∨ (0xDFFF < c.toNat ∧ c.toNat < 0x110000) := c.valid
  unfold encodeRune
  by_cases h1 : c.toNat < 0x80
  · have e0 : c.toNat % 256 = c.toNat := by omega
    simp [h1, decodeRune, byte, e0, Char.ofNat_toNat]
  · by_cases h2 : c.toNat < 0x800
    · simp only [h1, h2, if_false, if_true, List.cons_append, List.nil_append,
        List.length_cons, List.length_nil]
      have v0 := byte_val (0xC0 + c.toNat / 64) (by omega)
      have v1 := byte_val (0x80 + c.toNat % 64) (by omega)
      rw [decodeRune_two _ _ rest 0x80 0xBF (by rw [v0]; omega)
        (by rw [leadInfo_of_val _ _ v0, if_pos (by omega)]) (by rw [v1]; omega)]
      refine Prod.ext ?_ rfl
      exact ofNat_eq_of_toNat c _ (by rw [v0, v1]; omega)
    · by_cases h3 : c.toNat < 0x10000
      · simp only [h1, h2, h3, if_false, if_true, List.cons_append, List.nil_append,
          List.length_cons, List.length_nil]
        have v0 := byte_val (0xE0 + c.toNat / 4096) (by omega)
        have v1 := byte_val (0x80 + c.toNat / 64 % 64) (by omega)
        have v2 := byte_val (0x80 + c.toNat % 64) (by omega)
        have hres : Char.ofNat ((byte (0xE0 + c.toNat / 4096)).val % 16 * 4096 +
            (byte (0x80 + c.toNat / 64 % 64)).val % 64 * 64 +
            (byte (0x80 + c.toNat % 64)).val % 64) = c :=
          ofNat_eq_of_toNat c _ (by rw [v0, v1, v2]; omega)
        by_cases k1 : c.toNat < 0x1000
        · rw [decodeRune_three _ _ _ rest 0xA0 0xBF (by rw [v0]; omega)
            (by rw [leadInfo_of_val _ _ v0, if_neg (by omega), if_pos (by omega)])
            (by rw [v1]; omega) (by rw [v2]; omega), hres]
        · by_cases k2 : 0xD000 ≤ c.toNat ∧ c.toNat < 0xE000
          · rw [decodeRune_three _ _ _ rest 0x80 0x9F (by rw [v0]; omega)
              (by rw [leadInfo_of_val _ _ v0, if_neg (by omega), if_neg (by omega),
                if_pos (by omega)])
              (by rw [v1]; omega) (by rw [v2]; omega), hres]
          · rw [decodeRune_three _ _ _ rest 0x80 0xBF (by rw [v0]; omega)
              (by rw [leadInfo_of_val _ _ v0, if_neg (by omega), if_neg (by omega),
                if_neg (by omega), if_pos (by omega)])
              (by rw [v1]; omega) (by rw [v2]; omega), hres]
      · simp only [h1, h2, h3, if_false, List.cons_append, List.nil_append,
          List.length_cons, List.length_nil]
        have v0 := byte_val (0xF0 + c.toNat / 262144) (by omega)
        have v1 := byte_val (0x80 + c.toNat / 4096 % 64) (by omega)
        have v2 := byte_val (0x80 + c.toNat / 64 % 64) (by omega)
        have v3 := byte_val (0x80 + c.toNat % 64) (by omega)
        have hres : Char.ofNat ((byte (0xF0 + c.toNat / 262144)).val % 8 * 262144 +
            (byte (0x80 + c.toNat / 4096 % 64)).val % 64 * 4096 +
            (byte (0x80 + c.toNat / 64 % 64)).val % 64 * 64 +
            (byte (0x80 + c.toNat % 64)).val % 64) = c :=
          ofNat_eq_of_toNat c _ (by rw [v0, v1, v2, v3]; omega)
        by_cases k1 : c.toNat < 0x40000
        · rw [decodeRune_four _ _ _ _ rest 0x90 0xBF (by rw [v0]; omega)
            (by rw [leadInfo_of_val _ _ v0, if_neg (by omega), if_neg (by omega),
              if_neg (by omega), if_neg (by omega), if_pos (by omega)])
            (by rw [v1]; omega) (by rw [v2]; omega) (by rw [v3]; omega), hres]
        · by_cases k2 : c.toNat < 0x100000
          · rw [decodeRune_four _ _ _ _ rest 0x80 0xBF (by rw [v0]; omega)
              (by rw [leadInfo_of_val _ _ v0, if_neg (by omega), if_neg (by omega),
                if_neg (by omega), if_neg (by omega), if_neg (by omega), if_pos (by omega)])
              (by rw [v1]; omega) (by rw [v2]; omega) (by rw [v3]; omega), hres]
          · rw [decodeRune_four _ _ _ _ rest 0x80 0x8F (by rw [v0]; omega)
              (by rw [leadInfo_of_val _ _ v0, if_neg (by omega), if_neg (by omega),
                if_neg (by omega), if_neg (by omega), if_neg (by omega), if_neg (by omega),
                if_pos (by omega)])
              (by rw [v1]; omega) (by rw [v2]; omega) (by rw [v3]; omega), hres]

theorem decodeFrom_skip (l rest : List Byte) :
    decodeFrom l.length (l ++ rest) = decodeFrom 0 rest := by
  induction l with
  | nil => rfl
  | cons a l ih => simpa [decodeFrom] using ih

theorem decodeFrom_encodeRune (c : Char) (rest : List Byte) :
    decodeFrom 0 (encodeRune c ++ rest) = c :: decodeFrom 0 rest := by
  have h := decodeRune_encodeRune c rest
  have hne : ∃ p0 tail, encodeRune c = p0 :: tail := by
    unfold encodeRune
    split_ifs <;> exact ⟨_, _, rfl⟩
  obtain ⟨p0, tail, he⟩ := hne
  rw [he] at h ⊢
  rw [List.cons_append] at h ⊢
  rw [decodeFrom, h]
  simp only [List.length_cons, Nat.add_sub_cancel]
  exact congrArg _ (decodeFrom_skip tail rest)

/-- A body that is the UTF-8 encoding of a text is read back as that text. -/
theorem decodeUTF8_utf8Bytes (s : String) : decodeUTF8 (utf8Bytes s) = s.data := by
  unfold decodeUTF8 utf8Bytes
  induction s.data with
  | nil => rfl
  | cons c cs ih => simp only [List.flatMap_cons, decodeFrom_encodeRune, ih]

/-- The text of the UTF-8 encoding of a text is that text. -/
theorem textOf_utf8Bytes (s : String) : textOf (utf8Bytes s) = s := by
  unfold textOf
  rw [decodeUTF8_utf8Bytes]

/-! ## Lemmas on maps and on the decoder -/

theorem GoMap.get_set_other (m : GoMap) (k : String) (v : GoValue) (x : String)
    (hx : x ≠ k) : GoMap.get (GoMap.set m k v) x = GoMap.get m x := by
  induction m with
  | nil =>
    have : ¬ k = x := fun h => hx h.symm
    simp [GoMap.set, GoMap.get, this]
  | cons e rest ih =>
    obtain ⟨k1, v1⟩ := e
    by_cases hk : k1 = k
    · subst hk
      have : ¬ k1 = x := fun h => hx h.symm
      simp [GoMap.set, GoMap.get, this]
    · by_cases hk1 : k1 = x
      · subst hk1
        simp [GoMap.set, GoMap.get, hk]
      · simp [GoMap.set, GoMap.get, hk, hk1, ih]

theorem handleIPInfo_fetched (g : Globals) (sys : World) (w : ResponseWriter) (r : Request)
    (body : List Byte) (h : sys.fetched "https://ipinfo.io/json" = some body) :
    (handleIPInfo g sys w r).val = annotate sys w body := by
  unfold World.fetched at h
  unfold handleIPInfo
  simp only [Sys.val_bind, World.Get]
  cases h1 : sys.clientGet (sys.getenv "HTTP_PROXY") "https://ipinfo.io/json" with
  | error e => simp [h1] at h
  | ok resp =>
    simp only [h1] at h
    simp only [Sys.val_bind, World.ReadAll]
    cases h2 : resp.body with
    | error e => simp [h2] at h
    | ok b =>
      simp only [h2, Option.some.injEq] at h
      subst h
      rfl

theorem handleHTTPBin_fetched (g : Globals) (sys : World) (w : ResponseWriter) (r : Request)
    (body : List Byte) (h : sys.fetched "https://httpbin.org/json" = some body) :
    (handleHTTPBin g sys w r).val = annotate sys w body := by
  unfold World.fetched at h
  unfold handleHTTPBin
  simp only [Sys.val_bind, World.Get]
  cases h1 : sys.clientGet (sys.getenv "HTTP_PROXY") "https://httpbin.org/json" with
  | error e => simp [h1] at h
  | ok resp =>
    simp only [h1] at h
    simp only [Sys.val_bind, World.ReadAll]
    cases h2 : resp.body with
    | error e => simp [h2] at h
    | ok b =>
      simp only [h2, Option.some.injEq] at h
      subst h
      rfl

theorem handler_fetched (ep : Endpoint) (hep : ep ≠ .externalIP) (g : Globals) (sys : World)
    (w : ResponseWriter) (r : Request) (body : List Byte)
    (h : sys.fetched ep.url = some body) :
    (ep.handler g sys w r).val = annotate sys w body := by
  cases ep with
  | externalIP => exact absurd rfl hep
  | ipInfo => exact handleIPInfo_fetched g sys w r body h
  | httpBin => exact handleHTTPBin_fetched g sys w r body h

/-- C6: for each of `handleExternalIP`, `handleIPInfo` and `handleHTTPBin`,
when the outbound GET fails, or reading the body fails, or (for the last two)
decoding the body fails, the handler answers with status 500 and a plain-text
body made of a fixed prefix, the message of the underlying error and a line
feed; nothing else is written (no JSON), and the handler has made exactly one
outbound request. -/
theorem upstream_failure_is_500 (ep : Endpoint) (g : Globals) (sys : World) (r : Request)
    (stage err : String) (h : upstreamFailure ep sys = some (stage, err)) :
    (ep.handler g sys ResponseWriter.fresh r).val =
        .returned ⟨[("Content-Type", "text/plain; charset=utf-8"),
            ("X-Content-Type-Options", "nosniff")], some 500,
          [.text (errorPrefix ep stage ++ err ++ "\n")]⟩ ∧
      ((ep.handler g sys ResponseWriter.fresh r).log.filter Event.isClientGet).length = 1 := by
  cases ep
  · unfold upstreamFailure at h
    simp only [Endpoint.handler, Endpoint.url, handleExternalIP, Sys.val_bind, Sys.log_bind,
      World.Get, World.ReadAll] at h ⊢
    cases h1 : sys.clientGet (sys.getenv "HTTP_PROXY") "https://api.ipify.org" with
    | error e1 =>
      simp only [h1, Option.some.injEq, Prod.mk.injEq] at h
      obtain ⟨rfl, rfl⟩ := h
      exact ⟨rfl, rfl⟩
    | ok resp =>
      simp only [h1, Sys.val_bind, Sys.log_bind] at h ⊢
      cases h2 : resp.body with
      | error e2 =>
        simp only [h2, Option.some.injEq, Prod.mk.injEq] at h
        obtain ⟨rfl, rfl⟩ := h
        exact ⟨rfl, rfl⟩
      | ok body => simp [h2] at h
  · unfold upstreamFailure at h
    simp only [Endpoint.handler, Endpoint.url, handleIPInfo, Sys.val_bind, Sys.log_bind,
      World.Get, World.ReadAll] at h ⊢
    cases h1 : sys.clientGet (sys.getenv "HTTP_PROXY") "https://ipinfo.io/json" with
    | error e1 =>
      simp only [h1, Option.some.injEq, Prod.mk.injEq] at h
      obtain ⟨rfl, rfl⟩ := h
      exact ⟨rfl, rfl⟩
    | ok resp =>
      simp only [h1, Sys.val_bind, Sys.log_bind] at h ⊢
      cases h2 : resp.body with
      | error e2 =>
        simp only [h2, Option.some.injEq, Prod.mk.injEq] at h
        obtain ⟨rfl, rfl⟩ := h
        exact ⟨rfl, rfl⟩
      | ok body =>
        simp only [h2] at h ⊢
        cases h3 : (jsonUnmarshal sys body).err with
        | none => simp [h3] at h
        | some e3 =>
          simp only [h3, Option.map_some', Option.some.injEq, Prod.mk.injEq] at h
          obtain ⟨rfl, rfl⟩ := h
          simp only [Sys.val_pure, Sys.log_pure, annotate, h3]
          exact ⟨rfl, rfl⟩
  · unfold upstreamFailure at h
    simp only [Endpoint.handler, Endpoint.url, handleHTTPBin, Sys.val_bind, Sys.log_bind,
      World.Get, World.ReadAll] at h ⊢
    cases h1 : sys.clientGet (sys.getenv "HTTP_PROXY") "https://httpbin.org/json" with
    | error e1 =>
      simp only [h1, Option.some.injEq, Prod.mk.injEq] at h
      obtain ⟨rfl, rfl⟩ := h
      exact ⟨rfl, rfl⟩
    | ok resp =>
      simp only [h1, Sys.val_bind, Sys.log_bind] at h ⊢
      cases h2 : resp.body with
      | error e2 =>
        simp only [h2, Option.some.injEq, Prod.mk.injEq] at h
        obtain ⟨rfl, rfl⟩ := h
        exact ⟨rfl, rfl⟩
      | ok body =>
        simp only [h2] at h ⊢
        cases h3 : (jsonUnmarshal sys body).err with
        | none => simp [h3] at h
        | some e3 =>
          simp only [h3, Option.map_some', Option.some.injEq, Prod.mk.injEq] at h
          obtain ⟨rfl, rfl⟩ := h
          simp only [Sys.val_pure, Sys.log_pure, annotate, h3]
          exact ⟨rfl, rfl⟩

theorem upstream_failure_is_500_witness :
    ((Endpoint.ipInfo.handler Globals.sample (World.upstream 200 bodyHTML)
          ResponseWriter.fresh Request.sample).val =
        .returned ⟨[("Content-Type", "text/plain; charset=utf-8"),
            ("X-Content-Type-Options", "nosniff")], some 500,
          [.text (errorPrefix .ipInfo "decode" ++
            "invalid character '<' looking for beginning of value" ++ "\n")]⟩ ∧
      ((Endpoint.ipInfo.handler Globals.sample (World.upstream 200 bodyHTML)
          ResponseWriter.fresh Request.sample).log.filter Event.isClientGet).length = 1) ∧
    ((Endpoint.externalIP.handler Globals.sample World.bare
          ResponseWriter.fresh Request.sample).val =
        .returned ⟨[("Content-Type", "text/plain; charset=utf-8"),
            ("X-Content-Type-Options", "nosniff")], some 500,
          [.text (errorPrefix .externalIP "get" ++
            "proxyconnect tcp: dial tcp 172.16.28.8:3128: i/o timeout" ++ "\n")]⟩ ∧
      ((Endpoint.externalIP.handler Globals.sample World.bare
          ResponseWriter.fresh Request.sample).log.filter Event.isClientGet).length = 1) ∧
    ((Endpoint.httpBin.handler Globals.sample World.brokenBody
          ResponseWriter.fresh Request.sample).val =
        .returned ⟨[("Content-Type", "text/plain; charset=utf-8"),
            ("X-Content-Type-Options", "nosniff")], some 500,
          [.text (errorPrefix .httpBin "read" ++ "unexpected EOF" ++ "\n")]⟩ ∧
      ((Endpoint.httpBin.handler Globals.sample World.brokenBody
          ResponseWriter.fresh Request.sample).log.filter Event.isClientGet).length = 1) :=
  ⟨upstream_failure_is_500 .ipInfo Globals.sample (World.upstream 200 bodyHTML) Request.sample
      "decode" "invalid character '<' looking for beginning of value" (by decide),
    upstream_failure_is_500 .externalIP Globals.sample World.bare Request.sample
      "get" "proxyconnect tcp: dial tcp 172.16.28.8:3128: i/o timeout" (by decide),
    upstream_failure_is_500 .httpBin Globals.sample World.brokenBody Request.sample
      "read" "unexpected EOF" (by decide)⟩

/-- C7, as amended: whatever the status code and the body of the upstream
response, once it is received and read in full `handleExternalIP` answers with
status 200, `Content-Type: application/json` and the encoding of an
`ExternalIPResponse`, a JSON object with exactly the two members `ip` and
`currentTime`.  `currentTime` is the server's time stamp.  `ip` is the body
read as text, untrimmed: the entire body when the body is valid UTF-8 (the
encoding of a text `s`, then `ip` is `s`), and otherwise the body with every
byte that starts no valid UTF-8 encoding replaced by U+FFFD. -/
theorem externalIP_wraps_body (g : Globals) (sys : World) (r : Request) (code : Nat)
    (body : List Byte)
    (h : sys.clientGet (sys.getenv "HTTP_PROXY") "https://api.ipify.org"
      = .ok ⟨code, .ok body⟩) :
    (handleExternalIP g sys ResponseWriter.fresh r).val =
        .returned ⟨[("Content-Type", "application/json")], some 200,
          [.json (.externalIP ⟨body, sys.now⟩)]⟩ ∧
      (handleExternalIP g sys ResponseWriter.fresh r).val.status = some 200 ∧
      (handleExternalIP g sys ResponseWriter.fresh r).val.contentType = "application/json" ∧
      (handleExternalIP g sys ResponseWriter.fresh r).val.jsonMembers =
        some [("ip", .string (textOf body)), ("currentTime", .string sys.now)] ∧
      (∀ s : String, body = utf8Bytes s →
        (handleExternalIP g sys ResponseWriter.fresh r).val.jsonText "ip" = some s) := by
  have hval : (handleExternalIP g sys ResponseWriter.fresh r).val =
      .returned ⟨[("Content-Type", "application/json")], some 200,
        [.json (.externalIP ⟨body, sys.now⟩)]⟩ := by
    unfold handleExternalIP
    simp only [Sys.val_bind, World.Get, h, World.ReadAll]
    rfl
  rw [hval]
  refine ⟨rfl, rfl, rfl, rfl, ?_⟩
  intro s hs
  subst hs
  have ht := textOf_utf8Bytes s
  simp only [Outcome.jsonText, Outcome.jsonMembers, Payload.members, GoMap.get, if_true,
    GoValue.text, ht]

theorem externalIP_wraps_body_witness :
    ((handleExternalIP Globals.sample (World.upstream 503 bodyPadded)
          ResponseWriter.fresh Request.sample).val =
        .returned ⟨[("Content-Type", "application/json")], some 200,
          [.json (.externalIP ⟨bodyPadded, "2024-05-01T12:00:00Z"⟩)]⟩ ∧
      (handleExternalIP Globals.sample (World.upstream 503 bodyPadded)
          ResponseWriter.fresh Request.sample).val.status = some 200 ∧
      (handleExternalIP Globals.sample (World.upstream 503 bodyPadded)
          ResponseWriter.fresh Request.sample).val.contentType = "application/json" ∧
      (handleExternalIP Globals.sample (World.upstream 503 bodyPadded)
          ResponseWriter.fresh Request.sample).val.jsonMembers =
        some [("ip", .string (textOf bodyPadded)),
          ("currentTime", .string "2024-05-01T12:00:00Z")] ∧
      (∀ s : String, bodyPadded = utf8Bytes s →
        (handleExternalIP Globals.sample (World.upstream 503 bodyPadded)
          ResponseWriter.fresh Request.sample).val.jsonText "ip" = some s)) ∧
    (handleExternalIP Globals.sample (World.upstream 503 bodyPadded)
      ResponseWriter.fresh Request.sample).val.jsonText "ip" = some " 198.51.100.7\n" ∧
    (handleExternalIP Globals.sample (World.upstream 404 [])
      ResponseWriter.fresh Request.sample).val.jsonText "ip" = some "" :=
  ⟨externalIP_wraps_body Globals.sample (World.upstream 503 bodyPadded) Request.sample
      503 bodyPadded rfl,
    (externalIP_wraps_body Globals.sample (World.upstream 503 bodyPadded) Request.sample
      503 bodyPadded rfl).2.2.2.2 " 198.51.100.7\n" rfl,
    by decide⟩

/-- C7 as stated fails on the code: when the upstream body is the nine bytes
`ff fe 31 2e 32 2e 33 2e 34`, which are not valid UTF-8, the `ip` of the
response is the text U+FFFD U+FFFD `1.2.3.4`, whose bytes are not the body:
the encoder has replaced the two bytes that start no valid encoding. -/
theorem externalIP_wraps_body_counterexample :
    (World.upstream 200 bodyNotUTF8).clientGet
        ((World.upstream 200 bodyNotUTF8).getenv "HTTP_PROXY") "https://api.ipify.org"
      = .ok ⟨200, .ok bodyNotUTF8⟩ ∧
    (handleExternalIP Globals.sample (World.upstream 200 bodyNotUTF8)
      ResponseWriter.fresh Request.sample).val.status = some 200 ∧
    (handleExternalIP Globals.sample (World.upstream 200 bodyNotUTF8)
      ResponseWriter.fresh Request.sample).val.jsonText "ip" =
        some (String.mk (Char.ofNat 0xFFFD :: Char.ofNat 0xFFFD :: "1.2.3.4".data)) ∧
    utf8Bytes (String.mk (Char.ofNat 0xFFFD :: Char.ofNat 0xFFFD :: "1.2.3.4".data))
      ≠ bodyNotUTF8 ∧
    (utf8Bytes (String.mk (Char.ofNat 0xFFFD :: Char.ofNat 0xFFFD :: "1.2.3.4".data))).length
      = 13 ∧
    bodyNotUTF8.length = 9 := by
  refine ⟨rfl, by decide, by decide, by decide, by decide, by decide⟩

/-- C8, as amended: for a request whose path is exactly `/`, when reading
`static/index.html` fails, `handleIndex` answers with status 200 and a
plain-text body that is `Demo application is running` followed by one line
feed, whatever the package-level variables are. -/
theorem index_fallback (g : Globals) (sys : World) (r : Request) (err : String)
    (hpath : r.path = "/") (hread : sys.readFile "static/index.html" = .error err) :
    (handleIndex g sys ResponseWriter.fresh r).val =
        .returned ⟨[("Content-Type", "text/plain; charset=utf-8"),
            ("X-Content-Type-Options", "nosniff")], some 200,
          [.text "Demo application is running\n"]⟩ ∧
      (handleIndex g sys ResponseWriter.fresh r).val.status = some 200 ∧
      (handleIndex g sys ResponseWriter.fresh r).val.textBody =
        some ("Demo application is running" ++ "\n") := by
  have hval : (handleIndex g sys ResponseWriter.fresh r).val =
      .returned ⟨[("Content-Type", "text/plain; charset=utf-8"),
          ("X-Content-Type-Options", "nosniff")], some 200,
        [.text "Demo application is running\n"]⟩ := by
    unfold handleIndex
    simp only [hpath, ne_eq, not_true_eq_false, if_false, Sys.val_bind, World.ReadFile, hread]
    rfl
  rw [hval]
  exact ⟨rfl, rfl, rfl⟩

theorem index_fallback_witness :
    (handleIndex Globals.sample World.bare ResponseWriter.fresh Request.sample).val =
        .returned ⟨[("Content-Type", "text/plain; charset=utf-8"),
            ("X-Content-Type-Options", "nosniff")], some 200,
          [.text "Demo application is running\n"]⟩ ∧
      (handleIndex Globals.sample World.bare ResponseWriter.fresh Request.sample).val.status
        = some 200 ∧
      (handleIndex Globals.sample World.bare ResponseWriter.fresh Request.sample).val.textBody
        = some ("Demo application is running" ++ "\n") :=
  index_fallback Globals.sample World.bare Request.sample
    "open static/index.html: no such file or directory" rfl rfl

/-- C8 as stated fails on the code: with the page asset missing, the body of
the answer to `/` is not exactly `Demo application is running`; it has 28
characters, the 27 of the message and a line feed. -/
theorem index_fallback_counterexample :
    (handleIndex Globals.sample World.bare ResponseWriter.fresh Request.sample).val.status
        = some 200 ∧
      (handleIndex Globals.sample World.bare ResponseWriter.fresh Request.sample).val.textBody
        ≠ some "Demo application is running" ∧
      ((handleIndex Globals.sample World.bare ResponseWriter.fresh
        Request.sample).val.textBody.map String.length) = some 28 ∧
      "Demo application is running".length = 27 := by
  decide

/-- C10 fails on the code: when the upstream body is the JSON literal `null`,
`json.Unmarshal` returns no error and leaves the map nil, and `handleIPInfo`
and `handleHTTPBin` (the handlers of the endpoints other than the external-IP
one) panic on the assignment of `currentTime` (line 217, line 262); no
response is written. -/
theorem null_body_panics (ep : Endpoint) (g : Globals) (sys : World) (r : Request)
    (hep : ep ≠ .externalIP) (hfetch : sys.fetched ep.url = some (utf8Bytes "null")) :
    (jsonUnmarshal sys (utf8Bytes "null")).err = none ∧
      (jsonUnmarshal sys (utf8Bytes "null")).result = none ∧
      (ep.handler g sys ResponseWriter.fresh r).val =
        .panicked "assignment to entry in nil map" ∧
      (ep.handler g sys ResponseWriter.fresh r).val.status = none := by
  have hnull : checkValid (utf8Bytes "null") = .ok .null := rfl
  have hann : annotate sys ResponseWriter.fresh (utf8Bytes "null") =
      .panicked "assignment to entry in nil map" := by
    simp [annotate, jsonUnmarshal, hnull]
  have hval := handler_fetched ep hep g sys ResponseWriter.fresh r (utf8Bytes "null") hfetch
  rw [hann] at hval
  refine ⟨?_, ?_, hval, ?_⟩
  · simp [jsonUnmarshal, hnull]
  · simp [jsonUnmarshal, hnull]
  · rw [hval]; rfl

theorem null_body_panics_witness :
    ((jsonUnmarshal (World.upstream 200 bodyNull) (utf8Bytes "null")).err = none ∧
      (jsonUnmarshal (World.upstream 200 bodyNull) (utf8Bytes "null")).result = none ∧
      (handleIPInfo Globals.sample (World.upstream 200 bodyNull) ResponseWriter.fresh
        Request.sample).val = .panicked "assignment to entry in nil map" ∧
      (handleIPInfo Globals.sample (World.upstream 200 bodyNull) ResponseWriter.fresh
        Request.sample).val.status = none) ∧
    ((jsonUnmarshal (World.upstream 200 bodyNull) (utf8Bytes "null")).err = none ∧
      (jsonUnmarshal (World.upstream 200 bodyNull) (utf8Bytes "null")).result = none ∧
      (handleHTTPBin Globals.sample (World.upstream 200 bodyNull) ResponseWriter.fresh
        Request.sample).val = .panicked "assignment to entry in nil map" ∧
      (handleHTTPBin Globals.sample (World.upstream 200 bodyNull) ResponseWriter.fresh
        Request.sample).val.status = none) ∧
    bodyNull = [0x6e, 0x75, 0x6c, 0x6c] :=
  ⟨null_body_panics .ipInfo Globals.sample (World.upstream 200 bodyNull) Request.sample
      (by decide) rfl,
    null_body_panics .httpBin Globals.sample (World.upstream 200 bodyNull) Request.sample
      (by decide) rfl,
    by decide⟩

end EgressDemo
